import Mathlib

/-!
Dark Arts plugin (`src/plugin.js`): a shallow embedding

The plugin is JavaScript.  The embedding follows the source function by function.

* JavaScript numbers are exact rationals (`ℚ`): no rounding, no `NaN`, no infinities.
  `Math.floor` and `Math.ceil` are `Int.floor` and `Int.ceil`.
* A thrown exception is a value: every operation returns `Except JsError α` together
  with the environment it leaves behind, so the effects that happened before a throw
  stay visible.
* Everything the code reads or writes outside its arguments lives in one record, `Env`:
  the manager's fields, the module-level `DEFAULT_UNITS` object, `localStorage`, the
  snapshot of the game world behind `df`, the console, and two records of calls: the
  transfers the manager's `move` was called with (`requested`) and those it handed on
  to the imported `move` of `queued-move.js` (`submitted`).
* Host functions that are not part of the repository (`Math.sqrt`, the two energy
  oracles of `df`, the imported `move`) are fields of `Host` and are arbitrary.
-/

namespace DarkArts

/-! ## Constants -/

/-- Source `const PIRATE` (line 22). -/
def PIRATE : String := "0x0000000000000000000000000000000000000000"

/-- Source `const PERCENTAGE` (line 23). -/
def PERCENTAGE : ℚ := 10000

/-- Source `const DEFENSE` (line 24). -/
def DEFENSE : ℚ := 100

/-- Source `const UNITS` (line 40): the local-storage key of the units. -/
def UNITS : String := "Units"

/-! ## Data -/

/-- Exceptions raised by the modelled code. -/
inductive JsError where
  /-- A free identifier that is bound nowhere is evaluated. -/
  | referenceError (identifier : String)
  /-- A property is read from `undefined` or `null`. -/
  | typeError (what : String)
  /-- A host function (an oracle of `df`) throws. -/
  | hostError (what : String)
  deriving DecidableEq, Repr

abbrev LocationId := String

structure Coords where
  x : ℚ
  y : ℚ
  deriving DecidableEq, Repr

/-- The `location` object of a planet; `coords` may be absent. -/
structure Location where
  coords : Option Coords
  deriving DecidableEq, Repr

/-- The fields of a planet object that the plugin reads.  `location` and `locationId`
may be `undefined` (`none`). -/
structure Planet where
  locationId : Option LocationId
  location : Option Location
  owner : String
  energy : ℚ
  energyCap : ℚ
  silver : ℚ
  silverCap : ℚ
  defense : ℚ
  planetLevel : ℚ
  deriving DecidableEq, Repr

/-- An element of `df.getUnconfirmedMoves()`. -/
structure UnconfirmedMove where
  «from» : LocationId
  «to» : LocationId
  deriving DecidableEq, Repr

/-- An element of `df.getAllVoyages()`. -/
structure Voyage where
  toPlanet : LocationId
  arrivalTime : ℚ
  deriving DecidableEq, Repr

/-- The snapshot of the game behind the global `df`, and the clock. -/
structure World where
  /-- Source `df.getUnconfirmedMoves()` -/
  unconfirmedMoves : List UnconfirmedMove
  /-- Source `df.getAllVoyages()` -/
  allVoyages : List Voyage
  /-- Source `Date.now()`, in milliseconds -/
  now : ℚ
  /-- Source `df.getAccount()` -/
  account : String
  deriving DecidableEq, Repr

/-- The arguments of one call of the imported `move(srcId, dstId, energy, silver)`. -/
structure Transfer where
  srcId : Option LocationId
  dstId : Option LocationId
  energy : ℚ
  silver : ℚ
  deriving DecidableEq, Repr

/-- What the imported `move` of `queued-move.js` hands back. -/
abbrev Ack := String

/-- Host functions used by the plugin and defined outside the repository. -/
structure Host where
  /-- Source `Math.sqrt` -/
  sqrt : ℚ → ℚ
  /-- Source `df.getEnergyNeededForMove(fromId, toId, arrivingEnergy)`; it may throw. -/
  getEnergyNeededForMove : World → Option LocationId → Option LocationId → ℚ → Except JsError ℚ
  /-- Source `df.getEnergyArrivingForMove(fromId, toId, distance, sentEnergy)`; it may throw. -/
  getEnergyArrivingForMove :
    World → Option LocationId → Option LocationId → ℚ → ℚ → Except JsError ℚ
  /-- The imported `move` (line 8): its return value and what it does to the world. -/
  move : World → Transfer → Ack × World

/-- Class `Percentage` (lines 80-92): the field `val`. -/
structure Percentage where
  val : ℚ
  deriving DecidableEq, Repr

/-- The constructor of `Percentage`: `this.val = points * PERCENTAGE`. -/
def Percentage.new (points : ℚ) : Percentage := ⟨points * PERCENTAGE⟩

/-- Getter `raw`. -/
def Percentage.raw (p : Percentage) : ℚ := p.val

/-- Getter `points`. -/
def Percentage.points (p : Percentage) : ℚ := p.val / PERCENTAGE

/-- A value stored in `this.thresholds`: the defaults are `Percentage` objects,
`setThreshold` stores its argument, a number, as it is. -/
inductive ThresholdValue where
  | percentage (p : Percentage)
  | number (val : ℚ)
  deriving DecidableEq, Repr

/-- The object `this.thresholds`: properties in insertion order. -/
abbrev Thresholds := List (String × ThresholdValue)

/-- Source `DEFAULT_THRESHOLDS` (lines 106-111). -/
def DEFAULT_THRESHOLDS : Thresholds :=
  [("Energy", .percentage (Percentage.new 85)),
   ("Silver", .percentage (Percentage.new 100)),
   ("Attack", .percentage (Percentage.new 10)),
   ("Feed", .percentage (Percentage.new (5 / 100)))]

/-- Property read `thresholds[key]`. -/
def Thresholds.get (t : Thresholds) (key : String) : Option ThresholdValue :=
  t.lookup key

/-- Property write `thresholds[key] = v`: an existing property keeps its place, a new
one is appended. -/
def Thresholds.set : Thresholds → String → ThresholdValue → Thresholds
  | [], key, v => [(key, v)]
  | (k, w) :: rest, key, v =>
    if k = key then (k, v) :: rest else (k, w) :: Thresholds.set rest key v

/-- The keys of `UnitKey` (lines 52-58), in the order of the object literal. -/
inductive UnitKey where
  | Blitz
  | Feeders
  | Artillery
  | Railroads
  | None
  deriving DecidableEq, Repr

/-- A units object: one list of planet ids for each key (the shape of `DEFAULT_UNITS`). -/
structure Units where
  Artillery : List LocationId
  Blitz : List LocationId
  Railroads : List LocationId
  Feeders : List LocationId
  None : List LocationId
  deriving DecidableEq, Repr

/-- The initial contents of `DEFAULT_UNITS` (lines 113-119). -/
def Units.empty : Units := ⟨[], [], [], [], []⟩

/-- Property read `units[unitKey]`. -/
def Units.get (u : Units) : UnitKey → List LocationId
  | .Blitz => u.Blitz
  | .Feeders => u.Feeders
  | .Artillery => u.Artillery
  | .Railroads => u.Railroads
  | .None => u.None

/-- The array `units[unitKey]` replaced by `l` (the effect of an in-place array update). -/
def Units.set (u : Units) : UnitKey → List LocationId → Units
  | .Blitz, l => { u with Blitz := l }
  | .Feeders, l => { u with Feeders := l }
  | .Artillery, l => { u with Artillery := l }
  | .Railroads, l => { u with Railroads := l }
  | .None, l => { u with None := l }

/-- What `this.units` refers to.  `DEFAULT_UNITS` is one shared mutable object: a
manager whose `units` field is that object changes it when it changes its units. -/
inductive UnitsRef where
  /-- the module-level object `DEFAULT_UNITS` -/
  | default
  /-- an object of its own (made by `JSON.parse`) -/
  | own (u : Units)
  /-- Source `null` (from `JSON.parse(null)`) -/
  | null
  deriving DecidableEq, Repr

/-- A value that went through `JSON.stringify`: a units object or `null`. -/
inductive Json where
  | null
  | units (u : Units)
  deriving DecidableEq, Repr

/-- The two `localStorage` entries the plugin uses; `none` is a missing entry. -/
structure Storage where
  /-- entry `Units` -/
  units : Option Json
  /-- entry `Units-SAVE` -/
  unitsSave : Option Json
  deriving DecidableEq, Repr

/-- Everything the code reads and writes. -/
structure Env where
  /-- Source `this.thresholds` -/
  thresholds : Thresholds
  /-- Source `this.units` -/
  units : UnitsRef
  /-- the current contents of the object `DEFAULT_UNITS` -/
  defaultUnits : Units
  /-- Source `localStorage` -/
  storage : Storage
  /-- the world behind `df` -/
  world : World
  /-- the arguments of every call of `DarkArtsManager.move`, oldest first -/
  requested : List Transfer
  /-- the arguments of every call of the imported `move`, oldest first -/
  submitted : List Transfer
  /-- the first argument of every `console.log` call, oldest first -/
  console : List String
  deriving DecidableEq, Repr

/-- The result of running a piece of code: what it returned or threw, and the
environment it left. -/
abbrev Run (α : Type) := Except JsError α × Env

/-! ## Utilities (lines 1030-1073) -/

/-- Source `fail(reason, args, valueToReturn = null)` (lines 1032-1043): two console lines,
then `valueToReturn` is handed back (`()` stands for the `undefined` returned when no
value is given). -/
def fail {α : Type} (reason : String) (valueToReturn : α) (env : Env) : α × Env :=
  (valueToReturn,
   { env with
     console := env.console ++
       ["Failed, due to check or otherwise: " ++ reason, "Failed with args:"] })

/-- JavaScript truthiness of a string-or-undefined value. -/
def truthyId : Option LocationId → Bool
  | none => false
  | some s => s != ""

/-- Source `checkKnownPlanet(p)` (lines 1045-1047):
`!p.location || !p.locationId || !p.location.coords`. -/
def checkKnownPlanet (p : Planet) : Bool :=
  match p.location with
  | none => true
  | some loc => !truthyId p.locationId || loc.coords.isNone

/-- Source `getArrivalsForPlanet(planetId)` (lines 1052-1057). -/
def getArrivalsForPlanet (w : World) (planetId : Option LocationId) : List Voyage :=
  (w.allVoyages.filter (fun arrival => some arrival.toPlanet = planetId)).filter
    (fun p => p.arrivalTime > w.now / 1000)

/-- Reading `p.location.coords`, with the `TypeError` of a missing `location`. -/
def coordsOf (p : Planet) : Except JsError (Option Coords) :=
  match p.location with
  | none => .error (.typeError "location is undefined")
  | some loc => .ok loc.coords

/-- Source `distance(from, to)` (lines 1060-1067). -/
def distance (h : Host) (a b : Planet) : Except JsError ℚ :=
  match coordsOf a, coordsOf b with
  | .ok (some ca), .ok (some cb) => .ok (h.sqrt ((ca.x - cb.x) ^ 2 + (ca.y - cb.y) ^ 2))
  | .ok (some _), .ok none => .error (.typeError "coords is undefined")
  | .ok (some _), .error e => .error e
  | .ok none, .ok _ => .error (.typeError "coords is undefined")
  | .ok none, .error e => .error e
  | .error e, _ => .error e

/-- Source `Array.prototype.sort((a, b) => a[1] - b[1])` on `[planet, distance]` tuples: the
sort is stable, so its result is the one of insertion sort by the second component. -/
def sortByDistance (l : List (Planet × ℚ)) : List (Planet × ℚ) :=
  l.insertionSort (fun a b => a.2 ≤ b.2)

/-- The callback pattern `.map((p) => [p, distance(...)])`, left to right, stopping at
the first throw; `d p` is the distance call made for `p`. -/
def mapDistance (d : Planet → Except JsError ℚ) : List Planet → Except JsError (List (Planet × ℚ))
  | [] => .ok []
  | p :: rest =>
    match d p with
    | .error e => .error e
    | .ok x =>
      match mapDistance d rest with
      | .error e => .error e
      | .ok l => .ok ((p, x) :: l)

/-- Source `sortCandidates(mapping, from)` (lines 1069-1073). -/
def sortCandidates (h : Host) (mapping : List Planet) (frm : Planet) :
    Except JsError (List (Planet × ℚ)) :=
  match mapDistance (fun t => distance h frm t) mapping with
  | .error e => .error e
  | .ok l => .ok (sortByDistance l)

/-! ## Rate limits (lines 664-683) -/

/-- Source `checkRateLimitedOut(planetId)` (lines 665-672). -/
def checkRateLimitedOut (planetId : Option LocationId) (env : Env) : Bool × Env :=
  let unconfirmed := env.world.unconfirmedMoves.filter (fun move => some move.from = planetId)
  if unconfirmed.length > 4 then
    fail "rate limited" true env
  else (false, env)

/-- Source `checkRateLimitedIn(planetId)` (lines 675-683).  The array literal
`[unconfirmed, arrival, planetId]` is evaluated before `fail` is called, and `arrival`
is bound nowhere in the file (the local is `arrivals`): the branch throws. -/
def checkRateLimitedIn (planetId : Option LocationId) (env : Env) : Run Bool :=
  let unconfirmed := env.world.unconfirmedMoves.filter (fun move => some move.to = planetId)
  let arrivals := getArrivalsForPlanet env.world planetId
  if unconfirmed.length + arrivals.length > 4 then
    (.error (.referenceError "arrival"), env)
  else (.ok false, env)

/-! ## The dispatcher (lines 448-454) -/

/-- What `DarkArtsManager.move` returns: the number `0`, or what the imported `move`
returned. -/
inductive MoveResult where
  | zero
  | world (ack : Ack)
  deriving DecidableEq, Repr

/-- The call of the imported `move`: recorded in `submitted`, the world replaced. -/
def submit (h : Host) (t : Transfer) (env : Env) : Ack × Env :=
  ((h.move env.world t).1,
   { env with world := (h.move env.world t).2, submitted := env.submitted ++ [t] })

/-- The body of `DarkArtsManager.move` (lines 449-453). -/
def moveBody (h : Host) (srcId dstId : Option LocationId) (energy silver : ℚ) (env : Env) :
    Run MoveResult :=
  if srcId = dstId then
    (.ok (fail "Cannot move to self" MoveResult.zero env).1,
     (fail "Cannot move to self" MoveResult.zero env).2)
  else
    match checkRateLimitedIn dstId env with
    | (.error e, env1) => (.error e, env1)
    | (.ok true, env1) => (.ok .zero, env1)
    | (.ok false, env1) =>
      match checkRateLimitedOut srcId env1 with
      | (true, env2) => (.ok .zero, env2)
      | (false, env2) => (.ok (.world (submit h ⟨srcId, dstId, energy, silver⟩ env2).1),
                          (submit h ⟨srcId, dstId, energy, silver⟩ env2).2)

/-- Source `DarkArtsManager.move(srcId, dstId, energy, silver)` (lines 448-454): the call is
recorded in `requested`, then the body runs. -/
def move (h : Host) (srcId dstId : Option LocationId) (energy silver : ℚ) (env : Env) :
    Run MoveResult :=
  moveBody h srcId dstId energy silver
    { env with requested := env.requested ++ [⟨srcId, dstId, energy, silver⟩] }

/-! ## The manager: thresholds and units (lines 122-202) -/

/-- Source `new DarkArtsManager()` (lines 123-128) in a page with the given storage and world,
right after the module was loaded: `this.units` is the object `DEFAULT_UNITS`. -/
def init (storage : Storage) (world : World) : Env :=
  { thresholds := DEFAULT_THRESHOLDS
    units := .default
    defaultUnits := Units.empty
    storage := storage
    world := world
    requested := []
    submitted := []
    console := [] }

/-- Source `setThreshold(key, val)` (lines 131-134). -/
def setThreshold (key : String) (val : ℚ) (env : Env) : Run Unit :=
  if val ≤ 0 then
    (.ok (fail "threshold check" () env).1, (fail "threshold check" () env).2)
  else
    (.ok (), { env with thresholds := env.thresholds.set key (.number val) })

/-- The object `this.units` refers to, `none` for `null`. -/
def derefUnits (env : Env) : Option Units :=
  match env.units with
  | .default => some env.defaultUnits
  | .own u => some u
  | .null => none

/-- An in-place change of the object `this.units` refers to. -/
def mutateUnits (f : Units → Units) (env : Env) : Env :=
  match env.units with
  | .default => { env with defaultUnits := f env.defaultUnits }
  | .own u => { env with units := .own (f u) }
  | .null => env

/-- Source `JSON.stringify(this.units)`. -/
def stringifyUnits (env : Env) : Json :=
  match derefUnits env with
  | some u => .units u
  | none => .null

/-- Source `storeUnits()` (lines 172-174). -/
def storeUnits (env : Env) : Env :=
  { env with storage := { env.storage with units := some (stringifyUnits env) } }

/-- Source `saveUnits()` (lines 177-179). -/
def saveUnits (env : Env) : Env :=
  { env with storage := { env.storage with unitsSave := some (stringifyUnits env) } }

/-- Source `fetchSave()` (lines 182-184): `JSON.parse` of the backup entry. -/
def fetchSave (env : Env) : Json :=
  env.storage.unitsSave.getD .null

/-- Source `update(units)` (lines 164-169); the argument is a reference. -/
def update (units : UnitsRef) (env : Env) : UnitsRef × Env :=
  let env1 := saveUnits env
  let env2 := { env1 with units := units }
  let env3 := storeUnits env2
  (env3.units, env3)

/-- Source `clearUnit(planetId, unitKey)` (lines 139-147).  The array returned by `filter`
(line 142) is dropped: nothing is removed. -/
def clearUnit (planetId : LocationId) (unitKey : UnitKey) (env : Env) : Run Unit :=
  match derefUnits env with
  | none => (.error (.typeError "units is null"), env)
  | some loadedUnits =>
    if (loadedUnits.get unitKey).any (fun i => i == planetId) then
      (.ok (), (update env.units env).2)
    else
      (.ok (), { env with console := env.console ++ ["Did not clear unit"] })

/-- Source `setUnit(planetId, unitKey)` (lines 150-161): `push` changes the array in place. -/
def setUnit (planetId : LocationId) (unitKey : UnitKey) (env : Env) : Run Unit :=
  match derefUnits env with
  | none => (.error (.typeError "units is null"), env)
  | some loadedUnits =>
    if (loadedUnits.get unitKey).any (fun i => i != planetId)
        || (loadedUnits.get unitKey).length == 0 then
      let env1 := mutateUnits (fun u => u.set unitKey (u.get unitKey ++ [planetId])) env
      (.ok (), (update env1.units env1).2)
    else
      (.ok (), { env with console := env.console ++ ["Did not set unit"] })

/-- Source `wipeUnits()` (lines 187-191): `this.units = DEFAULT_UNITS` stores a reference to
the shared object, whatever it holds by now. -/
def wipeUnits (env : Env) : Run Unit :=
  let env1 := saveUnits env
  let env2 := { env1 with units := UnitsRef.default }
  (.ok (), storeUnits env2)

/-- Source `JSON.parse(item)` for an entry of the storage: a missing entry reads as `null`,
and `JSON.parse(null)` is `null`; a parsed object is a new object. -/
def parseItem : Option Json → UnitsRef
  | some (.units u) => .own u
  | some .null => .null
  | none => .null

/-- The test `typeof item !== undefined` (line 196): `typeof` yields a string, which is
never the value `undefined`. -/
def typeofIsNotUndefined (_item : Option Json) : Bool := true

/-- Source `loadUnits()` (lines 194-202). -/
def loadUnits (env : Env) : Run UnitsRef :=
  let item := env.storage.units
  if typeofIsNotUndefined item then
    (.ok (parseItem item), { env with units := parseItem item })
  else
    (.ok env.units, storeUnits env)

/-! ## Profitability (lines 218-274) -/

/-- Source `parseInt(x)` on a number: the integer part, rounded towards zero.  (For numbers
whose decimal string uses an exponent, below `1e-6` or from `1e21` on, JavaScript
reads the leading digits only; the embedding does not follow that.) -/
def parseInt (x : ℚ) : ℤ :=
  if 0 ≤ x then ⌊x⌋ else ⌈x⌉

/-- The expression `this.thresholds[key].raw`: a `TypeError` when the property is
missing, `undefined` (`none`) when a plain number is stored. -/
def thresholdRaw (t : Thresholds) (key : String) : Except JsError (Option ℚ) :=
  match t.get key with
  | none => .error (.typeError "threshold is undefined")
  | some (.percentage p) => .ok (some p.raw)
  | some (.number _) => .ok none

/-- The comparison `x >= threshold`, which is false when `threshold` is `undefined`. -/
def geThreshold (x : ℤ) : Option ℚ → Bool
  | none => false
  | some t => decide (t ≤ (x : ℚ))

/-- A `try` block whose `catch` returns `handler`. -/
def tryCatch {α : Type} (body : Except JsError α) (handler : α) : Except JsError α :=
  match body with
  | .ok v => .ok v
  | .error _ => .ok handler

/-- The `try` block of the own-planet branch (lines 230-244).  The arithmetic is exact:
where the code divides by an `energyCap` of zero and goes on with `Infinity` or `NaN`,
the division here yields `0`; statements about this branch are made for a capacity
that is not zero. -/
def potentialOwn (h : Host) (src dst : Planet) (maxEnergy : ℚ) (env : Env) :
    Except JsError ℤ :=
  let offense := parseInt (src.energy * maxEnergy / 100)
  match distance h src dst with
  | .error e => .error e
  | .ok d =>
    match h.getEnergyArrivingForMove env.world src.locationId dst.locationId d offense with
    | .error e => .error e
    | .ok arriving =>
      let sent : ℤ := ⌊arriving⌋
      let energyPercentage := Percentage.new (sent / dst.energyCap)
      match thresholdRaw env.thresholds "Feed" with
      | .error e => .error e
      | .ok threshold =>
        let thresholdCheck := geThreshold ⌊energyPercentage.raw⌋ threshold
        .ok (if thresholdCheck then offense else 0)

/-- The `try` block of the other branch (lines 250-269).  The arithmetic is exact:
where the code divides by a defense or an `energyCap` of zero and goes on with
`Infinity` or `NaN`, the division here yields `0`, and a quotient that double
arithmetic rounds below an integer (`33 / 1.1`) is that integer here; statements about
this branch are made for values where both agree. -/
def potentialOther (h : Host) (src dst : Planet) (maxEnergy : ℚ) (env : Env) :
    Except JsError ℤ :=
  let offense := parseInt (src.energy * maxEnergy / 100)
  let defense := dst.defense / DEFENSE
  match distance h src dst with
  | .error e => .error e
  | .ok d =>
    match h.getEnergyArrivingForMove env.world src.locationId dst.locationId d offense with
    | .error e => .error e
    | .ok arriving =>
      let sent : ℤ := ⌊arriving / defense⌋
      match thresholdRaw env.thresholds (if dst.owner = PIRATE then "Feed" else "Attack") with
      | .error e => .error e
      | .ok threshold =>
        let energyPercentage := Percentage.new (sent / dst.energyCap)
        let thresholdCheck := geThreshold ⌊energyPercentage.raw⌋ threshold
        .ok (if thresholdCheck then offense else 0)

/-- Source `calcPotential(src, dst, maxEnergy, passCheck = false)` (lines 218-274). -/
def calcPotential (h : Host) (src dst : Planet) (maxEnergy : ℚ) (passCheck : Bool)
    (env : Env) : Except JsError ℤ :=
  if checkKnownPlanet src || checkKnownPlanet dst || (decide (maxEnergy ≤ 10) && passCheck) then
    .ok 0
  else if dst.owner = env.world.account then
    tryCatch (potentialOwn h src dst maxEnergy env) 0
  else
    tryCatch (potentialOther h src dst maxEnergy env) 0

/-! ## The allocation loops (lines 459-512 and 574-625) -/

/-- The `while` loop of `capture` (lines 477-509) for a given `energyBudget`; the list
holds the candidates from index `i` on. -/
def captureLoop (h : Host) (src : Planet) (energyBudget : ℤ) :
    List (Planet × ℚ) → ℤ → ℕ → Env → Run ℕ
  | [], _, moves, env => (.ok moves, env)
  | (dst, _) :: rest, energySpent, moves, env =>
    if energyBudget - energySpent > 0 then
      let energyLeft := energyBudget - energySpent
      let unconfirmed :=
        env.world.unconfirmedMoves.filter (fun move => some move.to = dst.locationId)
      if unconfirmed.length ≠ 0 then captureLoop h src energyBudget rest energySpent moves env
      else
        let arrivals := getArrivalsForPlanet env.world dst.locationId
        if arrivals.length ≠ 0 then captureLoop h src energyBudget rest energySpent moves env
        else
          let energyArriving := dst.energyCap * (15 / 100) + dst.energy * (dst.defense / 100)
          match h.getEnergyNeededForMove env.world src.locationId dst.locationId
              energyArriving with
          | .error e => (.error e, env)
          | .ok needed =>
            let energyToSend : ℤ := ⌈needed⌉
            if energyLeft - energyToSend < 0 then
              captureLoop h src energyBudget rest energySpent moves env
            else
              match move h src.locationId dst.locationId energyToSend 0 env with
              | (.error e, env1) => (.error e, env1)
              | (.ok _, env1) =>
                captureLoop h src energyBudget rest (energySpent + energyToSend) (moves + 1) env1
    else (.ok moves, env)

/-- Source `capture(src, dsts, maxEnergy)` (lines 459-512); the result is a number or
`undefined` (`none`).  Line 475 reads `planet.energy`, and `planet` is bound nowhere in
the file (the parameter is `src`): evaluating it throws, so the loop is not reached. -/
def capture (_h : Host) (src : Planet) (dsts : List (Planet × ℚ)) (_maxEnergy : ℚ)
    (env : Env) : Run (Option ℕ) :=
  if dsts.length = 0 then
    (.ok (some (fail "no dsts" 0 env).1), (fail "no dsts" 0 env).2)
  else
    let unconfirmed :=
      env.world.unconfirmedMoves.filter (fun move => some move.from = src.locationId)
    if unconfirmed.length ≠ 0 then (.ok none, env)
    else (.error (.referenceError "planet"), env)

/-- The `while` loop of `sendSilver` (lines 594-622); the list holds the sorted tuples
from index `i` on. -/
def sendSilverLoop (h : Host) (src : Planet) (energyBudget silverBudget : ℤ) :
    List (Planet × ℚ) → ℤ → ℤ → ℕ → Env → Run ℕ
  | [], _, _, moves, env => (.ok moves, env)
  | (dst, _) :: rest, energySpent, silverSpent, moves, env =>
    if energyBudget - energySpent > 0 then
      let silverLeft := silverBudget - silverSpent
      let energyLeft := energyBudget - energySpent
      let silverRequested : ℤ := ⌈dst.silverCap - dst.silver⌉
      let silverNeeded := if silverRequested > silverLeft then silverLeft else silverRequested
      if silverNeeded < 200 then
        sendSilverLoop h src energyBudget silverBudget rest energySpent silverSpent moves env
      else
        match h.getEnergyNeededForMove env.world src.locationId dst.locationId 1 with
        | .error e => (.error e, env)
        | .ok needed =>
          let energyNeeded : ℤ := ⌈needed⌉
          if energyLeft - energyNeeded < 0 then
            sendSilverLoop h src energyBudget silverBudget rest energySpent silverSpent moves env
          else
            match move h src.locationId dst.locationId energyNeeded silverNeeded env with
            | (.error e, env1) => (.error e, env1)
            | (.ok _, env1) =>
              sendSilverLoop h src energyBudget silverBudget rest
                (energySpent + energyNeeded) (silverSpent + silverNeeded) (moves + 1) env1
    else (.ok moves, env)

/-- Source `sendSilver(src, dsts, maxEnergy, maxSilver, minLevel)` (lines 574-625). -/
def sendSilver (h : Host) (src : Planet) (dsts : List Planet) (maxEnergy maxSilver minLevel : ℚ)
    (env : Env) : Run ℕ :=
  if dsts.length = 0 then
    (.ok (fail "no dsts" 0 env).1, (fail "no dsts" 0 env).2)
  else
    match mapDistance (fun dst => distance h dst src)
        (dsts.filter (fun dst => decide (dst.planetLevel ≥ minLevel))) with
    | .error e => (.error e, env)
    | .ok tuples =>
      sendSilverLoop h src ⌊maxEnergy * src.energy / 100⌋ ⌊maxSilver * src.silver / 100⌋
        (sortByDistance tuples) 0 0 0 env

/-- The value of a free identifier that no declaration of the file binds: evaluating it
throws a `ReferenceError`. -/
def freeIdentifier (name : String) : Except JsError Planet :=
  .error (.referenceError name)

/-- The `while` loop of `sendEnergy` (lines 532-542); the list holds the sorted tuples
from index `i` on.  The body binds the candidate to a new `const src` and then calls
`this.calcPotential(src, dst, maxEnergy)`; `dst` is bound nowhere in `sendEnergy` (the
parameters are `src`, `dsts`, `maxEnergy`, `minLevel`). -/
def sendEnergyLoop (h : Host) (energyBudget : ℤ) (maxEnergy : ℚ) :
    List (Planet × ℚ) → ℤ → ℕ → Env → Run ℕ
  | [], _, moves, env => (.ok moves, env)
  | (src, _) :: rest, energySpent, moves, env =>
    if energyBudget - energySpent > 0 then
      let energyLeft := energyBudget - energySpent
      match freeIdentifier "dst" with
      | .error e => (.error e, env)
      | .ok dst =>
        match calcPotential h src dst maxEnergy false env with
        | .error e => (.error e, env)
        | .ok energyToSend =>
          if energyLeft - energyToSend < 0 then
            sendEnergyLoop h energyBudget maxEnergy rest energySpent moves env
          else
            match move h src.locationId dst.locationId energyToSend 0 env with
            | (.error e, env1) => (.error e, env1)
            | (.ok _, env1) =>
              sendEnergyLoop h energyBudget maxEnergy rest (energySpent + energyToSend)
                (moves + 1) env1
    else (.ok moves, env)

/-- Source `sendEnergy(src, dsts, maxEnergy, minLevel)` (lines 515-545). -/
def sendEnergy (h : Host) (src : Planet) (dsts : List Planet) (maxEnergy minLevel : ℚ)
    (env : Env) : Run ℕ :=
  if dsts.length = 0 then
    (.ok (fail "no dsts" 0 env).1, (fail "no dsts" 0 env).2)
  else
    match mapDistance (fun dst => distance h dst src)
        (dsts.filter (fun dst => decide (dst.planetLevel ≥ minLevel))) with
    | .error e => (.error e, env)
    | .ok tuples =>
      sendEnergyLoop h ⌊maxEnergy * src.energy / 100⌋ maxEnergy (sortByDistance tuples) 0 0 env

/-- The `while` loop of `receiveEnergy` (lines 560-568); the list holds the sorted
tuples from index `i` on. -/
def receiveEnergyLoop (h : Host) (dst : Planet) (maxEnergy : ℚ) :
    List (Planet × ℚ) → ℕ → Env → Run ℕ
  | [], moves, env => (.ok moves, env)
  | (src, _) :: rest, moves, env =>
    match calcPotential h src dst maxEnergy false env with
    | .error e => (.error e, env)
    | .ok power =>
      if power ≤ 0 then receiveEnergyLoop h dst maxEnergy rest moves env
      else
        match move h src.locationId dst.locationId power 0 env with
        | (.error e, env1) => (.error e, env1)
        | (.ok _, env1) => receiveEnergyLoop h dst maxEnergy rest (moves + 1) env1

/-- Source `receiveEnergy(srcs, dst, maxEnergy)` (lines 548-571). -/
def receiveEnergy (h : Host) (srcs : List Planet) (dst : Planet) (maxEnergy : ℚ)
    (env : Env) : Run ℕ :=
  if srcs.length = 0 then
    (.ok (fail "no srcs" 0 env).1, (fail "no srcs" 0 env).2)
  else
    match mapDistance (fun src => distance h src dst) srcs with
    | .error e => (.error e, env)
    | .ok tuples => receiveEnergyLoop h dst maxEnergy (sortByDistance tuples) 0 env

/-- Source `railroadFilters(src, dsts)` (lines 655-659).  The expression ends in `[0][0]`:
the planet of the first sorted tuple, not an array.  On an empty array the first `[0]`
is `undefined` and the second one throws. -/
def railroadFilters (h : Host) (src : Planet) (dsts : List Planet) : Except JsError Planet :=
  match mapDistance (fun dst => distance h dst src) dsts with
  | .error e => .error e
  | .ok tuples =>
    match sortByDistance tuples with
    | [] => .error (.typeError "cannot read property 0 of undefined")
    | (closest, _) :: _ => .ok closest

/-- A value handed over as the `dsts` argument of `sendSilver` or `sendEnergy`: an
array of planets, or a single planet object (what `railroadFilters` returns, assigned
to `dsts` on lines 322 and 364). -/
inductive DstsArg where
  | array (l : List Planet)
  | planet (p : Planet)
  deriving DecidableEq, Repr

/-- Source `sendSilver` (lines 574-625) for any `dsts` value.  A planet object has no
`length`, so `dsts.length === 0` (line 581) is false, and it has no `filter`: the call
`dsts.filter(...)` on line 583 throws a `TypeError`. -/
def sendSilverOn (h : Host) (src : Planet) (dsts : DstsArg) (maxEnergy maxSilver minLevel : ℚ)
    (env : Env) : Run ℕ :=
  match dsts with
  | .array l => sendSilver h src l maxEnergy maxSilver minLevel env
  | .planet _ => (.error (.typeError "dsts.filter is not a function"), env)

/-- Source `sendEnergy` (lines 515-545) for any `dsts` value; lines 521-523 are those of
`sendSilver`. -/
def sendEnergyOn (h : Host) (src : Planet) (dsts : DstsArg) (maxEnergy minLevel : ℚ)
    (env : Env) : Run ℕ :=
  match dsts with
  | .array l => sendEnergy h src l maxEnergy minLevel env
  | .planet _ => (.error (.typeError "dsts.filter is not a function"), env)


/-! ## Concrete objects used in examples -/

/-- A planet at integer coordinates `(x, y)` with the given id and stock. -/
def mkPlanet (id : LocationId) (x y : ℚ) (energy silver silverCap : ℚ) : Planet :=
  { locationId := some id
    location := some ⟨some ⟨x, y⟩⟩
    owner := "0xme"
    energy := energy
    energyCap := 10000
    silver := silver
    silverCap := silverCap
    defense := 100
    planetLevel := 3 }

/-- A world with nothing in flight. -/
def quietWorld : World :=
  { unconfirmedMoves := [], allVoyages := [], now := 0, account := "0xme" }

/-- A world with five unconfirmed moves towards planet `p`. -/
def busyWorld : World :=
  { unconfirmedMoves := [⟨"a", "p"⟩, ⟨"b", "p"⟩, ⟨"c", "p"⟩, ⟨"d", "p"⟩, ⟨"e", "p"⟩]
    allVoyages := []
    now := 0
    account := "0xme" }

/-- The number of inbound transfers `checkRateLimitedIn` counts for `planetId`. -/
def inboundCount (w : World) (planetId : Option LocationId) : ℕ :=
  (w.unconfirmedMoves.filter (fun move => some move.to = planetId)).length
    + (getArrivalsForPlanet w planetId).length

/-- The number of outbound transfers `checkRateLimitedOut` counts for `planetId`. -/
def outboundCount (w : World) (planetId : Option LocationId) : ℕ :=
  (w.unconfirmedMoves.filter (fun move => some move.from = planetId)).length

/-- Square roots for the examples: exact at the squares that occur there. -/
def exampleSqrt (q : ℚ) : ℚ :=
  if q = 4 then 2 else if q = 25 then 5 else if q = 64 then 8 else if q = 100 then 10 else 0

/-- A host for the examples: reaching planet `near` costs 400 energy, reaching any
other planet costs 300; all the energy sent arrives; the imported `move` acknowledges
with `queued` and registers the transfer as an unconfirmed move. -/
def exampleHost : Host :=
  { sqrt := exampleSqrt
    getEnergyNeededForMove := fun _ _ toId _ => .ok (if toId = some "near" then 400 else 300)
    getEnergyArrivingForMove := fun _ _ _ _ sent => .ok sent
    move := fun w t =>
      ("queued",
       { w with
         unconfirmedMoves := w.unconfirmedMoves ++ [⟨t.srcId.getD "", t.dstId.getD ""⟩] }) }

/-- A fresh manager in the quiet world, nothing stored. -/
def quietEnv : Env := init ⟨none, none⟩ quietWorld

/-- A fresh manager in the busy world, nothing stored. -/
def busyEnv : Env := init ⟨none, none⟩ busyWorld

/-- One call made on the manager from the user interface (lines 690-704, 741, 1278). -/
inductive UnitOp where
  | setUnit (planetId : LocationId) (unitKey : UnitKey)
  | clearUnit (planetId : LocationId) (unitKey : UnitKey)
  | loadUnits
  | wipeUnits
  deriving DecidableEq, Repr

/-- The environment after one call (a call that throws leaves what it had done). -/
def runUnitOp (env : Env) : UnitOp → Env
  | .setUnit planetId unitKey => (setUnit planetId unitKey env).2
  | .clearUnit planetId unitKey => (clearUnit planetId unitKey env).2
  | .loadUnits => (loadUnits env).2
  | .wipeUnits => (wipeUnits env).2

/-- The environment after a sequence of calls, first call first. -/
def runUnitOps (env : Env) (ops : List UnitOp) : Env :=
  ops.foldl runUnitOp env

/-- The planet data of `p` cannot be used: `location`, `locationId` or
`location.coords` is missing. -/
def lacksLocationData (p : Planet) : Prop :=
  p.location = none ∨ p.locationId = none ∨ ∃ loc, p.location = some loc ∧ loc.coords = none

/-- A planet without a `location`. -/
def unknownPlanet : Planet :=
  { locationId := some "lost"
    location := none
    owner := "0xme"
    energy := 100
    energyCap := 10000
    silver := 0
    silverCap := 1000
    defense := 100
    planetLevel := 3 }

/-- The transfers requested from the dispatcher between two environments of one run. -/
def issuedBy (before after : Env) : List Transfer :=
  after.requested.drop before.requested.length

/-- The silver a visit of `dst` would carry with `silverLeft` of the silver budget
left (lines 599-602): the smaller of `ceil(dst.silverCap - dst.silver)` and
`silverLeft`. -/
def silverNeededFor (dst : Planet) (silverLeft : ℤ) : ℤ :=
  if ⌈dst.silverCap - dst.silver⌉ > silverLeft then silverLeft
  else ⌈dst.silverCap - dst.silver⌉

/-- The total energy of a list of transfers. -/
def totalEnergy (l : List Transfer) : ℚ := (l.map (fun t => t.energy)).sum

/-- The total silver of a list of transfers. -/
def totalSilver (l : List Transfer) : ℚ := (l.map (fun t => t.silver)).sum

/-- What the loop guarantees for one transfer it requests: it leaves from the source,
goes to one of the candidates, carries at least 200 silver, and its energy is the
rounded-up answer of the energy-needed oracle. -/
def IssuedOk (h : Host) (src : Planet) (l : List (Planet × ℚ)) (t : Transfer) : Prop :=
  (200 : ℚ) ≤ t.silver
    ∧ t.srcId = src.locationId
    ∧ (∃ c ∈ l, t.dstId = c.1.locationId)
    ∧ ∃ w v, h.getEnergyNeededForMove w t.srcId t.dstId 1 = .ok v ∧ t.energy = ((⌈v⌉ : ℤ) : ℚ)

/-- The transfers handed to the imported `move` between two environments of one run. -/
def submittedBy (before after : Env) : List Transfer :=
  after.submitted.drop before.submitted.length

/-- The source of the examples: at the origin, 1000 energy, 5000 silver. -/
def srcA : Planet := mkPlanet "a" 0 0 1000 5000 5000

/-- A destination at distance 10 of `srcA`, with room for 1000 silver. -/
def farP : Planet := mkPlanet "far" 6 8 0 0 1000

/-- A destination at distance 5 of `srcA`, with room for 1000 silver. -/
def nearP : Planet := mkPlanet "near" 3 4 0 0 1000

deriving instance DecidableEq for Except

/-- The planet has a `location` with `coords`, so `distance` can read them. -/
def hasCoords (p : Planet) : Prop :=
  ∃ loc c, p.location = some loc ∧ loc.coords = some c

/-- The threshold test shared by both branches of `calcPotential` (lines 239-243 and
265-268): `sent / energyCap` goes into a `Percentage`, the floor of its `raw` is
compared with the raw threshold, and the result is `offense` or `0`. -/
def profitRule (threshold : Option ℚ) (sent : ℤ) (energyCap : ℚ) (offense : ℤ) : ℤ :=
  if geThreshold ⌊(Percentage.new ((sent : ℚ) / energyCap)).raw⌋ threshold then offense else 0

/-- A fresh manager in the quiet world whose storage holds an empty units object. -/
def storedEnv : Env := init ⟨some (.units Units.empty), none⟩ quietWorld

/-- A source at the origin with 200 energy. -/
def weakSrc : Planet := mkPlanet "a" 0 0 200 0 0

/-- A world where one unconfirmed move is on its way to planet `far`. -/
def inboundWorld : World :=
  { unconfirmedMoves := [⟨"x", "far"⟩], allVoyages := [], now := 0, account := "0xme" }

/-- A world where one voyage will arrive at planet `far` in a minute. -/
def arrivalWorld : World :=
  { unconfirmedMoves := [], allVoyages := [⟨"far", 60⟩], now := 0, account := "0xme" }

/-- An unowned destination at distance 5 of `srcA`: capacity 10000, defense 100. -/
def pirateP : Planet := { nearP with owner := PIRATE }

/-- A destination of another player at distance 5 of `srcA`, with capacity 40. -/
def enemyP : Planet := { nearP with owner := "0xfoe", energyCap := 40 }

/-- The number `calcPotential` returns (it never throws; `0` stands in for a throw). -/
def potentialValue (h : Host) (src dst : Planet) (maxEnergy : ℚ) (env : Env) : ℤ :=
  match calcPotential h src dst maxEnergy false env with
  | .ok v => v
  | .error _ => 0

/-- The sources of a sorted list of tuples whose potential towards `dst` is positive. -/
def feeders (h : Host) (dst : Planet) (maxEnergy : ℚ) (env : Env) (l : List (Planet × ℚ)) :
    List (Planet × ℚ) :=
  l.filter (fun x => decide (0 < potentialValue h x.1 dst maxEnergy env))

/-- The transfer `receiveEnergy` requests for a source: its potential, no silver. -/
def feedTransfer (h : Host) (dst : Planet) (maxEnergy : ℚ) (env : Env) (x : Planet × ℚ) :
    Transfer :=
  ⟨x.1.locationId, dst.locationId, (potentialValue h x.1 dst maxEnergy env : ℤ), 0⟩

/-- The example host with an imported `move` that only queues: the snapshot of the
world is left as it is. -/
def queueHost : Host := { exampleHost with move := fun w _ => ("queued", w) }

/-- A second source, at distance 10 of `nearP`, with 2000 energy. -/
def srcB : Planet := mkPlanet "b" 9 12 2000 0 0

/-- Follows the claim's words, not the code: the transfers inbound to a planet are the
unconfirmed moves whose `to` is the planet, plus the voyages to the planet whose arrival
time (in seconds) is later than now (`Date.now()` is in milliseconds). -/
def claimedInbound (w : World) (planetId : Option LocationId) : ℕ :=
  w.unconfirmedMoves.countP (fun m => decide (some m.to = planetId))
    + w.allVoyages.countP
        (fun v => decide (some v.toPlanet = planetId) && decide (w.now / 1000 < v.arrivalTime))

/-- Follows the claim's words, not the code: the unconfirmed moves that originate from
a planet. -/
def claimedOutbound (w : World) (planetId : Option LocationId) : ℕ :=
  w.unconfirmedMoves.countP (fun m => decide (some m.from = planetId))

/-- A world at second 5 in which five voyages reached planet `b` at second 1. -/
def arrivedWorld : World :=
  { unconfirmedMoves := []
    allVoyages := [⟨"b", 1⟩, ⟨"b", 1⟩, ⟨"b", 1⟩, ⟨"b", 1⟩, ⟨"b", 1⟩]
    now := 5000
    account := "0xme" }

/-- A world at second 5 in which five voyages will reach planet `b` at second 9. -/
def arrivingWorld : World :=
  { unconfirmedMoves := []
    allVoyages := [⟨"b", 9⟩, ⟨"b", 9⟩, ⟨"b", 9⟩, ⟨"b", 9⟩, ⟨"b", 9⟩]
    now := 5000
    account := "0xme" }

/-- A destination of another player at distance 5 of `srcA`: capacity 1000, defense 100. -/
def rivalP : Planet := { nearP with owner := "0xfoe", energyCap := 1000 }

/-- The sorted tuples `receiveEnergy` walks through (lines 554-556), when every
distance can be computed. -/
def feedOrder (h : Host) (srcs : List Planet) (dst : Planet) : List (Planet × ℚ) :=
  match mapDistance (fun src => distance h src dst) srcs with
  | .ok tuples => sortByDistance tuples
  | .error _ => []

/-- Follows the claim's words, not the loop: going through the sources in the given
order, a source whose potential towards `dst`, computed at that moment, is positive
gets one transfer, carrying that potential as energy and no silver; any other source
gets none.  The next source is looked at in the environment the dispatcher left. -/
def feedPlan (h : Host) (dst : Planet) (maxEnergy : ℚ) : List (Planet × ℚ) → Env → List Transfer
  | [], _ => []
  | (src, _) :: rest, env =>
    if 0 < potentialValue h src dst maxEnergy env then
      ⟨src.locationId, dst.locationId, (potentialValue h src dst maxEnergy env : ℤ), 0⟩ ::
        feedPlan h dst maxEnergy rest
          (move h src.locationId dst.locationId (potentialValue h src dst maxEnergy env : ℤ) 0
            env).2
    else feedPlan h dst maxEnergy rest env

/-- No transfer of the plan is dispatched while 5 or more transfers are inbound to
`dst` (a transfer from `dst` to itself is turned down before the inbound test). -/
def inboundBelowFive (h : Host) (dst : Planet) (maxEnergy : ℚ) :
    List (Planet × ℚ) → Env → Bool
  | [], _ => true
  | (src, _) :: rest, env =>
    if 0 < potentialValue h src dst maxEnergy env then
      (decide (src.locationId = dst.locationId)
          || decide (claimedInbound env.world dst.locationId < 5))
        && inboundBelowFive h dst maxEnergy rest
          (move h src.locationId dst.locationId (potentialValue h src dst maxEnergy env : ℤ) 0
            env).2
    else inboundBelowFive h dst maxEnergy rest env

/-! ## Basic facts about the dispatcher -/

@[simp] theorem fail_fst {α : Type} (reason : String) (v : α) (env : Env) :
    (fail reason v env).1 = v := rfl

@[simp] theorem fail_world {α : Type} (reason : String) (v : α) (env : Env) :
    (fail reason v env).2.world = env.world := rfl

@[simp] theorem fail_submitted {α : Type} (reason : String) (v : α) (env : Env) :
    (fail reason v env).2.submitted = env.submitted := rfl

@[simp] theorem fail_requested {α : Type} (reason : String) (v : α) (env : Env) :
    (fail reason v env).2.requested = env.requested := rfl

@[simp] theorem fail_thresholds {α : Type} (reason : String) (v : α) (env : Env) :
    (fail reason v env).2.thresholds = env.thresholds := rfl

theorem checkRateLimitedIn_eq (planetId : Option LocationId) (env : Env) :
    checkRateLimitedIn planetId env =
      if inboundCount env.world planetId > 4 then (.error (.referenceError "arrival"), env)
      else (.ok false, env) := rfl

theorem checkRateLimitedOut_eq (planetId : Option LocationId) (env : Env) :
    checkRateLimitedOut planetId env =
      if outboundCount env.world planetId > 4 then fail "rate limited" true env
      else (false, env) := rfl

/-- The three outcomes of the body of `move`. -/
theorem moveBody_cases (h : Host) (srcId dstId : Option LocationId) (energy silver : ℚ)
    (env : Env) :
    moveBody h srcId dstId energy silver env =
      if srcId = dstId then (.ok .zero, (fail "Cannot move to self" MoveResult.zero env).2)
      else if inboundCount env.world dstId > 4 then (.error (.referenceError "arrival"), env)
      else if outboundCount env.world srcId > 4 then
        (.ok .zero, (fail "rate limited" true env).2)
      else (.ok (.world (submit h ⟨srcId, dstId, energy, silver⟩ env).1),
            (submit h ⟨srcId, dstId, energy, silver⟩ env).2) := by
  unfold moveBody
  by_cases h1 : srcId = dstId
  · simp [h1]
  · rw [if_neg h1, if_neg h1, checkRateLimitedIn_eq]
    by_cases h2 : inboundCount env.world dstId > 4
    · simp [h2]
    · rw [if_neg h2, if_neg h2]
      simp only [checkRateLimitedOut_eq]
      by_cases h3 : outboundCount env.world srcId > 4
      · simp [h3, fail]
      · simp [h3]

/-! ## C4: the dispatcher -/

/-- The count made by `checkRateLimitedIn` (through `getArrivalsForPlanet`) is the
number of inbound transfers in the sense of the claim. -/
theorem inboundCount_eq_claimed (w : World) (planetId : Option LocationId) :
    inboundCount w planetId = claimedInbound w planetId := by
  unfold inboundCount claimedInbound getArrivalsForPlanet
  rw [List.countP_eq_length_filter, List.countP_eq_length_filter, List.filter_filter]
  congr 2
  apply List.filter_congr
  intro v _
  simp [Bool.and_comm]

/-- The count made by `checkRateLimitedOut` is the number of outbound unconfirmed moves
in the sense of the claim. -/
theorem outboundCount_eq_claimed (w : World) (planetId : Option LocationId) :
    outboundCount w planetId = claimedOutbound w planetId := by
  unfold outboundCount claimedOutbound
  rw [List.countP_eq_length_filter]

/-- C4. `DarkArtsManager.move(srcId, dstId, energy, silver)` hands the transfer to the
imported `move` and returns what that returns exactly when `srcId` differs from `dstId`,
fewer than 5 transfers are inbound to `dstId` (unconfirmed moves whose `to` is `dstId`
plus voyages to `dstId` that arrive after now) and fewer than 5 unconfirmed moves
originate from `srcId`; in every other case the record of submitted transfers and the
world are unchanged and the result is not a value of the imported `move`.  In
particular nothing is submitted for `srcId = dstId`, nor from a planet with 5 or more
outbound unconfirmed moves. -/
theorem move_submits_iff (h : Host) (srcId dstId : Option LocationId) (energy silver : ℚ)
    (env : Env) :
    ((srcId ≠ dstId ∧ claimedInbound env.world dstId < 5
          ∧ claimedOutbound env.world srcId < 5) →
      (move h srcId dstId energy silver env).1
          = .ok (.world (h.move env.world ⟨srcId, dstId, energy, silver⟩).1)
        ∧ (move h srcId dstId energy silver env).2.submitted
          = env.submitted ++ [⟨srcId, dstId, energy, silver⟩]
        ∧ (move h srcId dstId energy silver env).2.world
          = (h.move env.world ⟨srcId, dstId, energy, silver⟩).2)
    ∧ (¬ (srcId ≠ dstId ∧ claimedInbound env.world dstId < 5
          ∧ claimedOutbound env.world srcId < 5) →
      (move h srcId dstId energy silver env).2.submitted = env.submitted
        ∧ (move h srcId dstId energy silver env).2.world = env.world
        ∧ ∀ ack, (move h srcId dstId energy silver env).1 ≠ .ok (.world ack))
    ∧ (srcId = dstId → (move h srcId dstId energy silver env).2.submitted = env.submitted)
    ∧ (5 ≤ claimedOutbound env.world srcId →
        (move h srcId dstId energy silver env).2.submitted = env.submitted) := by
  have key : (srcId ≠ dstId ∧ claimedInbound env.world dstId < 5
          ∧ claimedOutbound env.world srcId < 5 →
      (move h srcId dstId energy silver env).1
          = .ok (.world (h.move env.world ⟨srcId, dstId, energy, silver⟩).1)
        ∧ (move h srcId dstId energy silver env).2.submitted
          = env.submitted ++ [⟨srcId, dstId, energy, silver⟩]
        ∧ (move h srcId dstId energy silver env).2.world
          = (h.move env.world ⟨srcId, dstId, energy, silver⟩).2)
    ∧ (¬ (srcId ≠ dstId ∧ claimedInbound env.world dstId < 5
          ∧ claimedOutbound env.world srcId < 5) →
      (move h srcId dstId energy silver env).2.submitted = env.submitted
        ∧ (move h srcId dstId energy silver env).2.world = env.world
        ∧ ∀ ack, (move h srcId dstId energy silver env).1 ≠ .ok (.world ack)) := by
    rw [← inboundCount_eq_claimed, ← outboundCount_eq_claimed]
    unfold move
    rw [moveBody_cases]
    constructor
    · rintro ⟨h1, h2, h3⟩
      have h2' : ¬ inboundCount env.world dstId > 4 := by omega
      have h3' : ¬ outboundCount env.world srcId > 4 := by omega
      simp [h1, h2', h3', submit]
    · intro hn
      by_cases h1 : srcId = dstId
      · simp [h1]
      · by_cases h2 : inboundCount env.world dstId > 4
        · simp [h1, h2]
        · by_cases h3 : outboundCount env.world srcId > 4
          · simp [h1, h2, h3]
          · exact absurd ⟨h1, by omega, by omega⟩ hn
  refine ⟨key.1, key.2, ?_, ?_⟩
  · intro heq
    exact (key.2 (fun hc => hc.1 heq)).1
  · intro hout
    exact (key.2 (fun hc => by omega)).1

/-- A transfer between two different planets in a quiet world is submitted; so is one
to a planet whose five voyages have all arrived; one to a planet with five voyages
still on their way is not. -/
theorem move_submits_iff_witness :
    ((move exampleHost (some "a") (some "b") 10 0 quietEnv).1 = .ok (.world "queued")
      ∧ (move exampleHost (some "a") (some "b") 10 0 quietEnv).2.submitted
          = [⟨some "a", some "b", 10, 0⟩])
      ∧ (move exampleHost (some "a") (some "b") 10 0 (init ⟨none, none⟩ arrivedWorld)).2.submitted
          = [⟨some "a", some "b", 10, 0⟩]
      ∧ (move exampleHost (some "a") (some "b") 10 0 (init ⟨none, none⟩ arrivingWorld)).2.submitted
          = [] := by
  have hc : (some "a" : Option LocationId) ≠ some "b"
      ∧ claimedInbound quietEnv.world (some "b") < 5
      ∧ claimedOutbound quietEnv.world (some "a") < 5 := by decide
  have h := (move_submits_iff exampleHost (some "a") (some "b") 10 0 quietEnv).1 hc
  have hc1 : (some "a" : Option LocationId) ≠ some "b"
      ∧ claimedInbound (init ⟨none, none⟩ arrivedWorld).world (some "b") < 5
      ∧ claimedOutbound (init ⟨none, none⟩ arrivedWorld).world (some "a") < 5 := by decide!
  have h1 := (move_submits_iff exampleHost (some "a") (some "b") 10 0
    (init ⟨none, none⟩ arrivedWorld)).1 hc1
  have hc2 : ¬ ((some "a" : Option LocationId) ≠ some "b"
      ∧ claimedInbound (init ⟨none, none⟩ arrivingWorld).world (some "b") < 5
      ∧ claimedOutbound (init ⟨none, none⟩ arrivingWorld).world (some "a") < 5) := by decide!
  have h2 := (move_submits_iff exampleHost (some "a") (some "b") 10 0
    (init ⟨none, none⟩ arrivingWorld)).2.1 hc2
  exact ⟨⟨h.1, h.2.1⟩, h1.2.1, h2.1⟩

/-! ## C5: the inbound rate limit -/

/-- What `checkRateLimitedIn` does: with 5 or more inbound transfers it throws a
`ReferenceError`, with fewer it returns `false`; the environment is left as it was. -/
theorem checkRateLimitedIn_spec (planetId : Option LocationId) (env : Env) :
    (5 ≤ inboundCount env.world planetId →
      checkRateLimitedIn planetId env = (.error (.referenceError "arrival"), env))
    ∧ (inboundCount env.world planetId < 5 →
      checkRateLimitedIn planetId env = (.ok false, env)) := by
  rw [checkRateLimitedIn_eq]
  constructor
  · intro h5
    have : inboundCount env.world planetId > 4 := by omega
    simp [this]
  · intro h5
    have : ¬ inboundCount env.world planetId > 4 := by omega
    simp [this]

/-- C5 (the code at the failing input). With five unconfirmed moves towards planet `p`
and no voyage, `checkRateLimitedIn("p")` does not return `true`: it throws. -/
theorem checkRateLimitedIn_throws_at_five :
    inboundCount busyEnv.world (some "p") = 5
      ∧ checkRateLimitedIn (some "p") busyEnv = (.error (.referenceError "arrival"), busyEnv) := by
  have h5 : inboundCount busyEnv.world (some "p") = 5 := by decide
  exact ⟨h5, (checkRateLimitedIn_spec (some "p") busyEnv).1 (by omega)⟩

/-! ## C6: rejected threshold updates -/

/-- C6. For every key and every `val <= 0`, `setThreshold(key, val)` returns
`undefined`, leaves every stored threshold (and everything else) as it was, and logs
the two lines of `fail` with the reason `threshold check`. -/
theorem setThreshold_nonpositive_rejected (key : String) (val : ℚ) (env : Env)
    (hval : val ≤ 0) :
    (setThreshold key val env).1 = .ok ()
      ∧ (setThreshold key val env).2.thresholds = env.thresholds
      ∧ (∀ k, (setThreshold key val env).2.thresholds.get k = env.thresholds.get k)
      ∧ (setThreshold key val env).2
          = { env with
              console := env.console ++
                ["Failed, due to check or otherwise: threshold check", "Failed with args:"] } := by
  simp [setThreshold, hval, fail]

/-- The default `Energy` threshold survives `setThreshold('Energy', -5)`. -/
theorem setThreshold_nonpositive_rejected_witness :
    (-5 : ℚ) ≤ 0
      ∧ (setThreshold "Energy" (-5) quietEnv).2.thresholds.get "Energy"
          = some (.percentage (Percentage.new 85)) :=
  ⟨by norm_num,
   ((setThreshold_nonpositive_rejected "Energy" (-5) quietEnv (by norm_num)).2.2.1 "Energy").trans
     rfl⟩

/-! ## C8: capture from a source with outbound moves -/

/-- C8. When some unconfirmed move leaves the source, `capture(src, dsts, maxEnergy)`
issues no transfer for any candidate list and any `maxEnergy`: nothing is requested
from the dispatcher, nothing is submitted, the world is unchanged; the call returns
`0` (empty list) or `undefined`. -/
theorem capture_blocked_by_outbound (h : Host) (src : Planet) (dsts : List (Planet × ℚ))
    (maxEnergy : ℚ) (env : Env)
    (hout : ∃ m ∈ env.world.unconfirmedMoves, some m.from = src.locationId) :
    (capture h src dsts maxEnergy env).2.requested = env.requested
      ∧ (capture h src dsts maxEnergy env).2.submitted = env.submitted
      ∧ (capture h src dsts maxEnergy env).2.world = env.world
      ∧ ((capture h src dsts maxEnergy env).1 = .ok (some 0)
          ∨ (capture h src dsts maxEnergy env).1 = .ok none) := by
  obtain ⟨m, hm, hfrom⟩ := hout
  have hne : (env.world.unconfirmedMoves.filter
      (fun move => decide (some move.from = src.locationId))).length ≠ 0 := by
    intro h0
    have hnil := List.length_eq_zero.mp h0
    have hmem : m ∈ env.world.unconfirmedMoves.filter
        (fun move => decide (some move.from = src.locationId)) :=
      List.mem_filter.mpr ⟨hm, by simpa using hfrom⟩
    rw [hnil] at hmem
    exact absurd hmem (List.not_mem_nil m)
  unfold capture
  by_cases h0 : dsts.length = 0
  · simp [h0]
  · simp only [h0, if_false, hne, ne_eq, not_false_eq_true, if_true]
    simp

/-- A source with one move in flight captures nothing, whatever the candidates. -/
theorem capture_blocked_by_outbound_witness :
    (capture exampleHost (mkPlanet "a" 0 0 1000 0 0) [(mkPlanet "near" 3 4 0 0 1000, 5)] 50
        busyEnv).2.submitted = [] :=
  (capture_blocked_by_outbound exampleHost (mkPlanet "a" 0 0 1000 0 0)
    [(mkPlanet "near" 3 4 0 0 1000, 5)] 50 busyEnv ⟨⟨"a", "p"⟩, by decide, rfl⟩).2.1

/-! ## C10: the failure cases of the profitability calculation -/

theorem checkKnownPlanet_of_lacks (p : Planet) (hp : lacksLocationData p) :
    checkKnownPlanet p = true := by
  unfold checkKnownPlanet
  rcases hp with h1 | h2 | ⟨loc, h3, h4⟩
  · simp [h1]
  · cases hl : p.location <;> simp [h2, truthyId]
  · simp [h3, h4]

/-- The `try` blocks never let an exception out. -/
theorem calcPotential_never_raises (h : Host) (src dst : Planet) (maxEnergy : ℚ)
    (passCheck : Bool) (env : Env) :
    ∃ v, calcPotential h src dst maxEnergy passCheck env = .ok v := by
  unfold calcPotential tryCatch
  split
  · exact ⟨0, rfl⟩
  · split
    · split <;> exact ⟨_, rfl⟩
    · split <;> exact ⟨_, rfl⟩

/-- C10. `calcPotential(src, dst, maxEnergy, passCheck)` returns a value for every
input, and that value is `0` when `src` or `dst` lacks a location, a locationId or
location coordinates, when `maxEnergy <= 10` with `passCheck` set, and when
`df.getEnergyArrivingForMove` throws for the pair. -/
theorem calcPotential_failure_cases (h : Host) (src dst : Planet) (maxEnergy : ℚ)
    (passCheck : Bool) (env : Env) :
    (∃ v, calcPotential h src dst maxEnergy passCheck env = .ok v)
      ∧ (lacksLocationData src → calcPotential h src dst maxEnergy passCheck env = .ok 0)
      ∧ (lacksLocationData dst → calcPotential h src dst maxEnergy passCheck env = .ok 0)
      ∧ (maxEnergy ≤ 10 → passCheck = true →
          calcPotential h src dst maxEnergy passCheck env = .ok 0)
      ∧ ((∀ d sent, ∃ e, h.getEnergyArrivingForMove env.world src.locationId dst.locationId
            d sent = .error e) →
          calcPotential h src dst maxEnergy passCheck env = .ok 0) := by
  refine ⟨calcPotential_never_raises h src dst maxEnergy passCheck env, ?_, ?_, ?_, ?_⟩
  · intro hs
    simp [calcPotential, checkKnownPlanet_of_lacks src hs]
  · intro hd
    simp [calcPotential, checkKnownPlanet_of_lacks dst hd]
  · intro hm hp
    simp [calcPotential, hm, hp]
  · intro herr
    unfold calcPotential
    split
    · rfl
    · split
      · unfold potentialOwn
        cases hd : distance h src dst with
        | error e => rfl
        | ok d =>
          obtain ⟨e, he⟩ := herr d (parseInt (src.energy * maxEnergy / 100))
          simp [he, tryCatch]
      · unfold potentialOther
        cases hd : distance h src dst with
        | error e => rfl
        | ok d =>
          obtain ⟨e, he⟩ := herr d (parseInt (src.energy * maxEnergy / 100))
          simp [he, tryCatch]

/-- A destination without a `location` has potential `0`. -/
theorem calcPotential_failure_cases_witness :
    calcPotential exampleHost (mkPlanet "a" 0 0 1000 0 0) unknownPlanet 50 false quietEnv
      = .ok 0 :=
  (calcPotential_failure_cases exampleHost (mkPlanet "a" 0 0 1000 0 0) unknownPlanet 50 false
    quietEnv).2.2.1 (Or.inl rfl)

/-! ## C9: wiping the units -/

/-- What `wipeUnits` does in every state: the backup entry receives the units as they
were, `this.units` becomes the object `DEFAULT_UNITS`, and the primary entry receives
the contents that object has at that moment. -/
theorem wipeUnits_spec (env : Env) :
    (wipeUnits env).2.storage.unitsSave = some (stringifyUnits env)
      ∧ (wipeUnits env).2.units = .default
      ∧ derefUnits (wipeUnits env).2 = some env.defaultUnits
      ∧ (wipeUnits env).2.storage.units = some (.units env.defaultUnits) := by
  simp [wipeUnits, saveUnits, storeUnits, stringifyUnits, derefUnits]

/-- While `DEFAULT_UNITS` still has its initial contents, a wipe empties the units. -/
theorem wipeUnits_empties_of_pristine (env : Env) (hd : env.defaultUnits = Units.empty) :
    (wipeUnits env).2.storage.unitsSave = some (stringifyUnits env)
      ∧ derefUnits (wipeUnits env).2 = some Units.empty
      ∧ (wipeUnits env).2.storage.units = some (.units Units.empty) := by
  have h := wipeUnits_spec env
  rw [hd] at h
  exact ⟨h.1, h.2.2.1, h.2.2.2⟩

/-- C9 (the code at the failing input). Plugin start on an empty storage, then
`wipeUnits()`, `setUnit('p1', 'Blitz')`, `wipeUnits()`: after the second wipe the backup
holds the pre-wipe units, but the manager's units and the primary entry still hold
`p1` under `Blitz`, because `setUnit` pushed into the shared object `DEFAULT_UNITS`.
The shorter sequence `setUnit('p1', 'Blitz')`, `wipeUnits()` on a new manager ends the
same way. -/
theorem wipeUnits_keeps_pushed_unit :
    (runUnitOps quietEnv [.loadUnits, .wipeUnits, .setUnit "p1" .Blitz, .wipeUnits]).storage.unitsSave
        = some (.units { Units.empty with Blitz := ["p1"] })
      ∧ derefUnits (runUnitOps quietEnv [.loadUnits, .wipeUnits, .setUnit "p1" .Blitz, .wipeUnits])
        = some { Units.empty with Blitz := ["p1"] }
      ∧ (runUnitOps quietEnv [.loadUnits, .wipeUnits, .setUnit "p1" .Blitz, .wipeUnits]).storage.units
        = some (.units { Units.empty with Blitz := ["p1"] })
      ∧ derefUnits (runUnitOps quietEnv [.setUnit "p1" .Blitz, .wipeUnits])
        = some { Units.empty with Blitz := ["p1"] }
      ∧ (runUnitOps quietEnv [.setUnit "p1" .Blitz, .wipeUnits]).storage.units
        = some (.units { Units.empty with Blitz := ["p1"] }) := by
  refine ⟨?_, ?_, ?_, ?_, ?_⟩ <;> decide

/-! ## The loop of `sendSilver` -/

theorem silverNeededFor_eq_min (dst : Planet) (silverLeft : ℤ) :
    silverNeededFor dst silverLeft = min ⌈dst.silverCap - dst.silver⌉ silverLeft := by
  unfold silverNeededFor
  split_ifs with hc
  · exact (min_eq_right (le_of_lt hc)).symm
  · exact (min_eq_left (not_lt.mp hc)).symm

/-- Every call of `DarkArtsManager.move` is recorded, whatever its outcome. -/
theorem move_requested (h : Host) (srcId dstId : Option LocationId) (energy silver : ℚ)
    (env : Env) :
    (move h srcId dstId energy silver env).2.requested
      = env.requested ++ [⟨srcId, dstId, energy, silver⟩] := by
  unfold move
  rw [moveBody_cases]
  split_ifs <;> simp [fail, submit]

/-- One step of the loop, as a chain of tests. -/
theorem sendSilverLoop_cons (h : Host) (src : Planet) (energyBudget silverBudget : ℤ)
    (dst : Planet) (d : ℚ) (rest : List (Planet × ℚ)) (energySpent silverSpent : ℤ) (moves : ℕ)
    (env : Env) :
    sendSilverLoop h src energyBudget silverBudget ((dst, d) :: rest) energySpent silverSpent
        moves env =
      if energyBudget - energySpent > 0 then
        if silverNeededFor dst (silverBudget - silverSpent) < 200 then
          sendSilverLoop h src energyBudget silverBudget rest energySpent silverSpent moves env
        else
          match h.getEnergyNeededForMove env.world src.locationId dst.locationId 1 with
          | .error e => (.error e, env)
          | .ok needed =>
            if energyBudget - energySpent - ⌈needed⌉ < 0 then
              sendSilverLoop h src energyBudget silverBudget rest energySpent silverSpent moves
                env
            else
              match move h src.locationId dst.locationId (⌈needed⌉ : ℤ)
                  (silverNeededFor dst (silverBudget - silverSpent) : ℤ) env with
              | (.error e, env1) => (.error e, env1)
              | (.ok _, env1) =>
                sendSilverLoop h src energyBudget silverBudget rest (energySpent + ⌈needed⌉)
                  (silverSpent + silverNeededFor dst (silverBudget - silverSpent)) (moves + 1)
                  env1
      else (.ok moves, env) := by
  rw [sendSilverLoop]
  rfl

/-- Once the energy budget is used up the loop stops, whatever candidates are left. -/
theorem sendSilverLoop_done (h : Host) (src : Planet) (energyBudget silverBudget : ℤ)
    (l : List (Planet × ℚ)) (energySpent silverSpent : ℤ) (moves : ℕ) (env : Env)
    (hdone : ¬ energyBudget - energySpent > 0) :
    sendSilverLoop h src energyBudget silverBudget l energySpent silverSpent moves env
      = (.ok moves, env) := by
  cases l with
  | nil => rw [sendSilverLoop]
  | cons c rest =>
    obtain ⟨dst, d⟩ := c
    rw [sendSilverLoop_cons, if_neg hdone]

/-- A call of `DarkArtsManager.move` submits its transfer or nothing. -/
theorem move_submitted (h : Host) (srcId dstId : Option LocationId) (energy silver : ℚ)
    (env : Env) :
    (move h srcId dstId energy silver env).2.submitted = env.submitted
      ∨ (move h srcId dstId energy silver env).2.submitted
          = env.submitted ++ [⟨srcId, dstId, energy, silver⟩] := by
  unfold move
  rw [moveBody_cases]
  split_ifs <;> simp [fail, submit]

theorem IssuedOk.tail {h : Host} {src : Planet} {c : Planet × ℚ} {l : List (Planet × ℚ)}
    {t : Transfer} (ht : IssuedOk h src l t) : IssuedOk h src (c :: l) t := by
  obtain ⟨h1, h2, ⟨c', hc', h3⟩, h4⟩ := ht
  exact ⟨h1, h2, ⟨c', List.mem_cons_of_mem _ hc', h3⟩, h4⟩

/-- The invariant of the loop: what it requests from the dispatcher is appended to the
record and costs no more energy than what was left of the budget; what is submitted is
part of what is requested. -/
theorem sendSilverLoop_issued (h : Host) (src : Planet) (energyBudget silverBudget : ℤ) :
    ∀ (l : List (Planet × ℚ)) (energySpent silverSpent : ℤ) (moves : ℕ) (env : Env),
      ∃ L S : List Transfer,
        (sendSilverLoop h src energyBudget silverBudget l energySpent silverSpent moves
            env).2.requested = env.requested ++ L
          ∧ (sendSilverLoop h src energyBudget silverBudget l energySpent silverSpent moves
            env).2.submitted = env.submitted ++ S
          ∧ S.Sublist L
          ∧ totalEnergy L ≤ ((max 0 (energyBudget - energySpent) : ℤ) : ℚ)
          ∧ ∀ t ∈ L, IssuedOk h src l t := by
  intro l
  induction l with
  | nil =>
    intro energySpent silverSpent moves env
    refine ⟨[], [], by rw [sendSilverLoop]; simp, by rw [sendSilverLoop]; simp,
      List.Sublist.refl _, ?_, by simp⟩
    simp [totalEnergy]
  | cons c rest ih =>
    intro energySpent silverSpent moves env
    obtain ⟨dst, d⟩ := c
    rw [sendSilverLoop_cons]
    by_cases hb : energyBudget - energySpent > 0
    · rw [if_pos hb]
      by_cases hs : silverNeededFor dst (silverBudget - silverSpent) < 200
      · rw [if_pos hs]
        obtain ⟨L, S, h1, h2, h3, h4, h5⟩ := ih energySpent silverSpent moves env
        exact ⟨L, S, h1, h2, h3, h4, fun t ht => (h5 t ht).tail⟩
      · rw [if_neg hs]
        cases ho : h.getEnergyNeededForMove env.world src.locationId dst.locationId 1 with
        | error e =>
          refine ⟨[], [], by simp, by simp, List.Sublist.refl _, ?_, by simp⟩
          simp [totalEnergy]
        | ok needed =>
          simp only []
          by_cases he : energyBudget - energySpent - ⌈needed⌉ < 0
          · rw [if_pos he]
            obtain ⟨L, S, h1, h2, h3, h4, h5⟩ := ih energySpent silverSpent moves env
            exact ⟨L, S, h1, h2, h3, h4, fun t ht => (h5 t ht).tail⟩
          · rw [if_neg he]
            have hreq := move_requested h src.locationId dst.locationId (⌈needed⌉ : ℤ)
              (silverNeededFor dst (silverBudget - silverSpent) : ℤ) env
            have hsub := move_submitted h src.locationId dst.locationId (⌈needed⌉ : ℤ)
              (silverNeededFor dst (silverBudget - silverSpent) : ℤ) env
            have hok : IssuedOk h src ((dst, d) :: rest)
                ⟨src.locationId, dst.locationId, (⌈needed⌉ : ℤ),
                  (silverNeededFor dst (silverBudget - silverSpent) : ℤ)⟩ := by
              refine ⟨?_, rfl, ⟨(dst, d), List.mem_cons_self _ _, rfl⟩, env.world, needed, ho, rfl⟩
              have : (200 : ℤ) ≤ silverNeededFor dst (silverBudget - silverSpent) := not_lt.mp hs
              show (200 : ℚ) ≤ ((silverNeededFor dst (silverBudget - silverSpent) : ℤ) : ℚ)
              exact_mod_cast this
            have hle : ⌈needed⌉ ≤ energyBudget - energySpent := by omega
            cases hm : move h src.locationId dst.locationId (⌈needed⌉ : ℤ)
                (silverNeededFor dst (silverBudget - silverSpent) : ℤ) env with
            | mk r env1 =>
              rw [hm] at hreq hsub
              simp only [] at hreq hsub
              cases r with
              | error e =>
                refine ⟨[⟨src.locationId, dst.locationId, (⌈needed⌉ : ℤ),
                  (silverNeededFor dst (silverBudget - silverSpent) : ℤ)⟩],
                  env1.submitted.drop env.submitted.length, hreq, ?_, ?_, ?_, ?_⟩
                · rcases hsub with hsub | hsub <;> simp [hsub]
                · rcases hsub with hsub | hsub <;> simp [hsub]
                · simp only [totalEnergy, List.map_cons, List.map_nil, List.sum_cons,
                    List.sum_nil, add_zero]
                  have : ⌈needed⌉ ≤ max 0 (energyBudget - energySpent) :=
                    le_trans hle (le_max_right _ _)
                  exact_mod_cast this
                · intro t ht
                  rw [List.mem_singleton] at ht
                  subst ht
                  exact hok
              | ok v =>
                obtain ⟨L, S, hL, hS, hSL, hsum, hall⟩ := ih (energySpent + ⌈needed⌉)
                  (silverSpent + silverNeededFor dst (silverBudget - silverSpent)) (moves + 1) env1
                refine ⟨⟨src.locationId, dst.locationId, (⌈needed⌉ : ℤ),
                  (silverNeededFor dst (silverBudget - silverSpent) : ℤ)⟩ :: L,
                  env1.submitted.drop env.submitted.length ++ S, ?_, ?_, ?_, ?_, ?_⟩
                · simp only []
                  rw [hL, hreq]
                  simp
                · simp only []
                  rw [hS]
                  rcases hsub with hsub | hsub <;> simp [hsub]
                · rcases hsub with hsub | hsub
                  · simp only [hsub, List.drop_length, List.nil_append]
                    exact hSL.cons _
                  · simp only [hsub, List.drop_left, List.singleton_append]
                    exact hSL.cons₂ _
                · simp only [totalEnergy, List.map_cons, List.sum_cons]
                  have h1 : max 0 (energyBudget - (energySpent + ⌈needed⌉))
                      = energyBudget - energySpent - ⌈needed⌉ := by
                    rw [max_eq_right (by omega)]
                    ring
                  rw [h1] at hsum
                  have h2 : ((energyBudget - energySpent : ℤ) : ℚ)
                      ≤ ((max 0 (energyBudget - energySpent) : ℤ) : ℚ) := by
                    exact_mod_cast le_max_right _ _
                  simp only [totalEnergy] at hsum
                  push_cast at hsum h2 ⊢
                  linarith
                · intro t ht
                  rcases List.mem_cons.mp ht with ht | ht
                  · subst ht
                    exact hok
                  · exact (hall t ht).tail
    · rw [if_neg hb]
      refine ⟨[], [], by simp, by simp, List.Sublist.refl _, ?_, by simp⟩
      simp [totalEnergy]

/-- The loop invariant, for a whole call of `sendSilver`. -/
theorem sendSilver_issued (h : Host) (src : Planet) (dsts : List Planet)
    (maxEnergy maxSilver minLevel : ℚ) (env : Env) :
    ∃ L S : List Transfer,
      (sendSilver h src dsts maxEnergy maxSilver minLevel env).2.requested = env.requested ++ L
        ∧ (sendSilver h src dsts maxEnergy maxSilver minLevel env).2.submitted
            = env.submitted ++ S
        ∧ S.Sublist L
        ∧ totalEnergy L ≤ ((max 0 ⌊maxEnergy * src.energy / 100⌋ : ℤ) : ℚ)
        ∧ ∀ t ∈ L, (200 : ℚ) ≤ t.silver ∧ t.srcId = src.locationId
            ∧ ∃ w v, h.getEnergyNeededForMove w t.srcId t.dstId 1 = .ok v
                ∧ t.energy = ((⌈v⌉ : ℤ) : ℚ) := by
  have hnil : ∃ L S : List Transfer, env.requested = env.requested ++ L
      ∧ env.submitted = env.submitted ++ S ∧ S.Sublist L
      ∧ totalEnergy L ≤ ((max 0 ⌊maxEnergy * src.energy / 100⌋ : ℤ) : ℚ)
      ∧ ∀ t ∈ L, (200 : ℚ) ≤ t.silver ∧ t.srcId = src.locationId
          ∧ ∃ w v, h.getEnergyNeededForMove w t.srcId t.dstId 1 = .ok v
              ∧ t.energy = ((⌈v⌉ : ℤ) : ℚ) := by
    refine ⟨[], [], by simp, by simp, List.Sublist.refl _, ?_, by simp⟩
    simp [totalEnergy]
  unfold sendSilver
  by_cases h0 : dsts.length = 0
  · rw [if_pos h0]
    simpa using hnil
  · rw [if_neg h0]
    cases hmap : mapDistance (fun dst => distance h dst src)
        (dsts.filter (fun dst => decide (dst.planetLevel ≥ minLevel))) with
    | error e => simpa using hnil
    | ok tuples =>
      obtain ⟨L, S, h1, h2, h3, h4, h5⟩ := sendSilverLoop_issued h src
        ⌊maxEnergy * src.energy / 100⌋ ⌊maxSilver * src.silver / 100⌋
        (sortByDistance tuples) 0 0 0 env
      refine ⟨L, S, h1, h2, h3, ?_, ?_⟩
      · simpa using h4
      · intro t ht
        obtain ⟨a, b, _, c⟩ := h5 t ht
        exact ⟨a, b, c⟩

/-! ## C1: the energy budget of `sendSilver` -/

/-- For any percentage and stock, negative ones included: the energy requested by one
call totals at most `max(0, budget)`, and what is submitted is part of what is
requested. -/
theorem sendSilver_energy_le_max (h : Host) (src : Planet) (dsts : List Planet)
    (maxEnergy maxSilver minLevel : ℚ) (env : Env) :
    totalEnergy (issuedBy env (sendSilver h src dsts maxEnergy maxSilver minLevel env).2)
        ≤ ((max 0 ⌊maxEnergy * src.energy / 100⌋ : ℤ) : ℚ)
      ∧ (submittedBy env (sendSilver h src dsts maxEnergy maxSilver minLevel env).2).Sublist
          (issuedBy env (sendSilver h src dsts maxEnergy maxSilver minLevel env).2)
      ∧ ((∀ w a b x v, h.getEnergyNeededForMove w a b x = .ok v → 0 ≤ v) →
          totalEnergy (submittedBy env (sendSilver h src dsts maxEnergy maxSilver minLevel env).2)
            ≤ ((max 0 ⌊maxEnergy * src.energy / 100⌋ : ℤ) : ℚ)) := by
  obtain ⟨L, S, h1, h2, h3, h4, h5⟩ :=
    sendSilver_issued h src dsts maxEnergy maxSilver minLevel env
  have hL : issuedBy env (sendSilver h src dsts maxEnergy maxSilver minLevel env).2 = L := by
    simp [issuedBy, h1]
  have hS : submittedBy env (sendSilver h src dsts maxEnergy maxSilver minLevel env).2 = S := by
    simp [submittedBy, h2]
  rw [hL, hS]
  refine ⟨h4, h3, ?_⟩
  intro hpos
  refine le_trans ?_ h4
  unfold totalEnergy
  refine List.Sublist.sum_le_sum (h3.map _) ?_
  intro x hx
  obtain ⟨t, ht, rfl⟩ := List.mem_map.mp hx
  obtain ⟨_, _, w, v, hv, hte⟩ := h5 t ht
  rw [hte]
  have : (0 : ℤ) ≤ ⌈v⌉ := Int.ceil_nonneg (hpos w _ _ _ v hv)
  exact_mod_cast this

/-- The floor of a percentage of a stock is not negative when neither of them is. -/
theorem budget_nonneg (percentage stock : ℚ) (hp : 0 ≤ percentage) (hs : 0 ≤ stock) :
    (0 : ℤ) ≤ ⌊percentage * stock / 100⌋ :=
  Int.floor_nonneg.mpr (div_nonneg (mul_nonneg hp hs) (by norm_num))

/-- C1. For every source with a non-negative energy stock, every destination list,
every non-negative `maxEnergy` and every `maxSilver` and `minLevel`, the energy of the
transfers one `sendSilver` call requests from the dispatcher totals at most
`floor(maxEnergy * src.energy / 100)`, whatever the energy-needed oracle returns.  The
transfers handed on to the world are among the requested ones, and total at most the
same bound when the oracle returns no negative cost.  The loop itself stays within any
non-negative budget it is started with, whatever value line 592 computed. -/
theorem sendSilver_energy_within_budget (h : Host) (src : Planet) (dsts : List Planet)
    (maxEnergy maxSilver minLevel : ℚ) (env : Env)
    (hmax : 0 ≤ maxEnergy) (hstock : 0 ≤ src.energy) :
    totalEnergy (issuedBy env (sendSilver h src dsts maxEnergy maxSilver minLevel env).2)
        ≤ ((⌊maxEnergy * src.energy / 100⌋ : ℤ) : ℚ)
      ∧ (submittedBy env (sendSilver h src dsts maxEnergy maxSilver minLevel env).2).Sublist
          (issuedBy env (sendSilver h src dsts maxEnergy maxSilver minLevel env).2)
      ∧ ((∀ w a b x v, h.getEnergyNeededForMove w a b x = .ok v → 0 ≤ v) →
          totalEnergy (submittedBy env (sendSilver h src dsts maxEnergy maxSilver minLevel env).2)
            ≤ ((⌊maxEnergy * src.energy / 100⌋ : ℤ) : ℚ))
      ∧ (∀ (energyBudget silverBudget : ℤ) (l : List (Planet × ℚ)) (e : Env),
          0 ≤ energyBudget →
          totalEnergy (issuedBy e (sendSilverLoop h src energyBudget silverBudget l 0 0 0 e).2)
            ≤ (energyBudget : ℚ)) := by
  have hb := budget_nonneg maxEnergy src.energy hmax hstock
  have hm := sendSilver_energy_le_max h src dsts maxEnergy maxSilver minLevel env
  rw [max_eq_right hb] at hm
  refine ⟨hm.1, hm.2.1, hm.2.2, ?_⟩
  intro energyBudget silverBudget l e hnn
  obtain ⟨L, _, h1, _, _, h4, _⟩ :=
    sendSilverLoop_issued h src energyBudget silverBudget l 0 0 0 e
  have hL : issuedBy e (sendSilverLoop h src energyBudget silverBudget l 0 0 0 e).2 = L := by
    simp [issuedBy, h1]
  rw [hL]
  have hmax0 : max 0 (energyBudget - 0) = energyBudget := by
    rw [sub_zero, max_eq_right hnn]
  rw [hmax0] at h4
  exact h4

/-- With `maxEnergy = 50` and 1000 energy the budget is 500; the two example
destinations cost 400 and 300, and 400 is requested. -/
theorem sendSilver_energy_within_budget_witness :
    (totalEnergy (issuedBy quietEnv (sendSilver exampleHost srcA [farP, nearP] 50 100 1
        quietEnv).2) ≤ ((⌊(50 : ℚ) * srcA.energy / 100⌋ : ℤ) : ℚ))
      ∧ totalEnergy (issuedBy quietEnv (sendSilver exampleHost srcA [farP, nearP] 50 100 1
        quietEnv).2) = 400
      ∧ ⌊(50 : ℚ) * srcA.energy / 100⌋ = 500 :=
  ⟨(sendSilver_energy_within_budget exampleHost srcA [farP, nearP] 50 100 1 quietEnv
      (by norm_num) (by decide!)).1,
   by decide!, by decide!⟩

/-! ## C2: the 200-silver floor of `sendSilver` -/

/-- C2. Every transfer one `sendSilver` call requests from the dispatcher, and so every
transfer it hands to the world, carries at least 200 silver; and a candidate for which
`min(ceil(dst.silverCap - dst.silver), silver left)` is below 200 is passed over: the
loop behaves as if it were not in the list. -/
theorem sendSilver_silver_at_least_200 (h : Host) (src : Planet) (dsts : List Planet)
    (maxEnergy maxSilver minLevel : ℚ) (env : Env) :
    (∀ t ∈ issuedBy env (sendSilver h src dsts maxEnergy maxSilver minLevel env).2,
        (200 : ℚ) ≤ t.silver)
      ∧ (∀ t ∈ submittedBy env (sendSilver h src dsts maxEnergy maxSilver minLevel env).2,
        (200 : ℚ) ≤ t.silver)
      ∧ ∀ (energyBudget silverBudget : ℤ) (dst : Planet) (d : ℚ) (rest : List (Planet × ℚ))
          (energySpent silverSpent : ℤ) (moves : ℕ) (env1 : Env),
          min ⌈dst.silverCap - dst.silver⌉ (silverBudget - silverSpent) < 200 →
          sendSilverLoop h src energyBudget silverBudget ((dst, d) :: rest) energySpent
              silverSpent moves env1
            = sendSilverLoop h src energyBudget silverBudget rest energySpent silverSpent
                moves env1 := by
  obtain ⟨L, S, h1, h2, h3, _, h5⟩ :=
    sendSilver_issued h src dsts maxEnergy maxSilver minLevel env
  have hL : issuedBy env (sendSilver h src dsts maxEnergy maxSilver minLevel env).2 = L := by
    simp [issuedBy, h1]
  have hS : submittedBy env (sendSilver h src dsts maxEnergy maxSilver minLevel env).2 = S := by
    simp [submittedBy, h2]
  rw [hL, hS]
  refine ⟨fun t ht => (h5 t ht).1, fun t ht => (h5 t (h3.subset ht)).1, ?_⟩
  intro energyBudget silverBudget dst d rest energySpent silverSpent moves env1 hmin
  rw [← silverNeededFor_eq_min] at hmin
  by_cases hb : energyBudget - energySpent > 0
  · rw [sendSilverLoop_cons, if_pos hb, if_pos hmin]
  · rw [sendSilverLoop_done _ _ _ _ _ _ _ _ _ hb, sendSilverLoop_done _ _ _ _ _ _ _ _ _ hb]

/-- A destination with room for 150 silver only is passed over. -/
theorem sendSilver_silver_at_least_200_witness :
    sendSilverLoop exampleHost srcA 500 5000 [(mkPlanet "small" 3 4 0 850 1000, 5)] 0 0 0 quietEnv
      = (.ok 0, quietEnv) :=
  ((sendSilver_silver_at_least_200 exampleHost srcA [] 50 100 1 quietEnv).2.2 500 5000
    (mkPlanet "small" 3 4 0 850 1000) 5 [] 0 0 0 quietEnv (by decide!)).trans
    (by rw [sendSilverLoop])

/-! ## C7: skip and continue -/

/-- C7. In the loop of `sendSilver` a candidate whose rounded-up energy cost exceeds
the energy left is passed over: the counters, the move count and the environment are
those the loop continues with on the later candidates.  A candidate that fits (energy
is left, at least 200 silver to carry, cost within the energy left) is requested from
the dispatcher.  With `src.energy = 1000` and `maxEnergy = 50` (budget 500): one
destination costing 300 gives one transfer of 300 energy, 200 of the budget left; two
destinations, the nearer costing 400 and the farther 300, give one transfer, of 400
energy to the nearer one. -/
theorem sendSilver_skips_unaffordable :
    (∀ (h : Host) (src : Planet) (energyBudget silverBudget : ℤ) (dst : Planet) (d : ℚ)
        (rest : List (Planet × ℚ)) (energySpent silverSpent : ℤ) (moves : ℕ) (env : Env)
        (needed : ℚ),
        h.getEnergyNeededForMove env.world src.locationId dst.locationId 1 = .ok needed →
        ⌈needed⌉ > energyBudget - energySpent →
        sendSilverLoop h src energyBudget silverBudget ((dst, d) :: rest) energySpent
            silverSpent moves env
          = sendSilverLoop h src energyBudget silverBudget rest energySpent silverSpent
              moves env)
      ∧ (∀ (h : Host) (src : Planet) (energyBudget silverBudget : ℤ) (dst : Planet) (d : ℚ)
        (rest : List (Planet × ℚ)) (energySpent silverSpent : ℤ) (moves : ℕ) (env : Env)
        (needed : ℚ),
        energyBudget - energySpent > 0 →
        200 ≤ min ⌈dst.silverCap - dst.silver⌉ (silverBudget - silverSpent) →
        h.getEnergyNeededForMove env.world src.locationId dst.locationId 1 = .ok needed →
        ⌈needed⌉ ≤ energyBudget - energySpent →
        ∃ L, (sendSilverLoop h src energyBudget silverBudget ((dst, d) :: rest) energySpent
            silverSpent moves env).2.requested
          = env.requested ++
              (⟨src.locationId, dst.locationId, (⌈needed⌉ : ℤ),
                (min ⌈dst.silverCap - dst.silver⌉ (silverBudget - silverSpent) : ℤ)⟩ :: L))
      ∧ ((sendSilver exampleHost srcA [farP] 50 100 1 quietEnv).1 = .ok 1
          ∧ (sendSilver exampleHost srcA [farP] 50 100 1 quietEnv).2.requested
              = [⟨some "a", some "far", 300, 1000⟩]
          ∧ (sendSilver exampleHost srcA [farP] 50 100 1 quietEnv).2.submitted
              = [⟨some "a", some "far", 300, 1000⟩]
          ∧ ⌊(50 : ℚ) * srcA.energy / 100⌋ - 300 = 200)
      ∧ ((sendSilver exampleHost srcA [farP, nearP] 50 100 1 quietEnv).1 = .ok 1
          ∧ (sendSilver exampleHost srcA [farP, nearP] 50 100 1 quietEnv).2.requested
              = [⟨some "a", some "near", 400, 1000⟩]
          ∧ (sendSilver exampleHost srcA [farP, nearP] 50 100 1 quietEnv).2.submitted
              = [⟨some "a", some "near", 400, 1000⟩]) := by
  refine ⟨?_, ?_, ?_, ?_⟩
  · intro h src energyBudget silverBudget dst d rest energySpent silverSpent moves env needed
      ho hgt
    by_cases hb : energyBudget - energySpent > 0
    · rw [sendSilverLoop_cons, if_pos hb, ho]
      have he : energyBudget - energySpent - ⌈needed⌉ < 0 := by omega
      simp only [he, if_true]
      split_ifs <;> rfl
    · rw [sendSilverLoop_done _ _ _ _ _ _ _ _ _ hb, sendSilverLoop_done _ _ _ _ _ _ _ _ _ hb]
  · intro h src energyBudget silverBudget dst d rest energySpent silverSpent moves env needed
      hb hs ho hle
    rw [← silverNeededFor_eq_min] at hs ⊢
    have hs' : ¬ silverNeededFor dst (silverBudget - silverSpent) < 200 := not_lt.mpr hs
    have he : ¬ energyBudget - energySpent - ⌈needed⌉ < 0 := by omega
    rw [sendSilverLoop_cons, if_pos hb, if_neg hs', ho]
    simp only [he, if_false]
    have hreq := move_requested h src.locationId dst.locationId (⌈needed⌉ : ℤ)
      (silverNeededFor dst (silverBudget - silverSpent) : ℤ) env
    cases hm : move h src.locationId dst.locationId (⌈needed⌉ : ℤ)
        (silverNeededFor dst (silverBudget - silverSpent) : ℤ) env with
    | mk r env1 =>
      rw [hm] at hreq
      simp only [] at hreq
      cases r with
      | error e => exact ⟨[], hreq⟩
      | ok v =>
        obtain ⟨L, _, hL, _⟩ := sendSilverLoop_issued h src energyBudget silverBudget rest
          (energySpent + ⌈needed⌉)
          (silverSpent + silverNeededFor dst (silverBudget - silverSpent)) (moves + 1) env1
        refine ⟨L, ?_⟩
        simp only []
        rw [hL, hreq]
        simp
  · refine ⟨?_, ?_, ?_, ?_⟩ <;> decide!
  · refine ⟨?_, ?_, ?_⟩ <;> decide!

/-- In the second scenario, after 400 of the 500 are spent, the candidate costing 300
is passed over and the loop ends with one move. -/
theorem sendSilver_skips_unaffordable_witness :
    sendSilverLoop exampleHost srcA 500 5000 [(farP, 10)] 400 1000 1 quietEnv
      = (.ok 1, quietEnv) :=
  (sendSilver_skips_unaffordable.1 exampleHost srcA 500 5000 farP 10 [] 400 1000 1 quietEnv 300
    rfl (by decide!)).trans (by rw [sendSilverLoop])

/-! ## C3: sorting the candidates -/

theorem distance_ok_of_hasCoords (h : Host) (a b : Planet) (ha : hasCoords a)
    (hb : hasCoords b) : ∃ x, distance h a b = .ok x := by
  obtain ⟨la, ca, hla, hca⟩ := ha
  obtain ⟨lb, cb, hlb, hcb⟩ := hb
  exact ⟨h.sqrt ((ca.x - cb.x) ^ 2 + (ca.y - cb.y) ^ 2),
    by simp [distance, coordsOf, hla, hca, hlb, hcb]⟩

/-- When every distance call succeeds, `map` pairs each element with its distance. -/
theorem mapDistance_ok (d : Planet → Except JsError ℚ) :
    ∀ l : List Planet, (∀ p ∈ l, ∃ x, d p = .ok x) →
      ∃ r, mapDistance d l = .ok r ∧ r.map Prod.fst = l ∧ ∀ x ∈ r, d x.1 = .ok x.2 := by
  intro l
  induction l with
  | nil => intro _; exact ⟨[], rfl, rfl, by simp⟩
  | cons p rest ih =>
    intro hall
    obtain ⟨x, hx⟩ := hall p (List.mem_cons_self _ _)
    obtain ⟨r, hr, hfst, hsnd⟩ := ih (fun q hq => hall q (List.mem_cons_of_mem _ hq))
    refine ⟨(p, x) :: r, by simp [mapDistance, hx, hr], by simp [hfst], ?_⟩
    intro y hy
    rcases List.mem_cons.mp hy with hy | hy
    · subst hy
      exact hx
    · exact hsnd y hy

theorem sortByDistance_perm (l : List (Planet × ℚ)) : (sortByDistance l).Perm l :=
  List.perm_insertionSort _ l

theorem sortByDistance_sorted (l : List (Planet × ℚ)) :
    (sortByDistance l).Pairwise (fun a b => a.2 ≤ b.2) := by
  haveI : IsTotal (Planet × ℚ) (fun a b => a.2 ≤ b.2) := ⟨fun a b => le_total a.2 b.2⟩
  haveI : IsTrans (Planet × ℚ) (fun a b => a.2 ≤ b.2) := ⟨fun _ _ _ hab hbc => le_trans hab hbc⟩
  exact List.sorted_insertionSort (fun a b : Planet × ℚ => a.2 ≤ b.2) l

/-- C3 as stated fails: for a node without a `location`, `distance` throws a
`TypeError` and `sortCandidates` returns nothing. -/
theorem sortCandidates_throws_without_location :
    sortCandidates exampleHost [nearP, unknownPlanet] srcA
        = .error (.typeError "location is undefined")
      ∧ ¬ ∃ l, sortCandidates exampleHost [nearP, unknownPlanet] srcA = .ok l := by
  have h : sortCandidates exampleHost [nearP, unknownPlanet] srcA
      = .error (.typeError "location is undefined") := by decide!
  refine ⟨h, ?_⟩
  rintro ⟨l, hl⟩
  rw [h] at hl
  cases hl

/-- C3, amended. When the reference node and every node of the list have location
coordinates, `sortCandidates(mapping, from)` returns a list of pairs whose nodes are a
permutation of `mapping`, each paired with `distance(from, node)`, in non-decreasing
order of distance; candidates `[A, B, C]` at distances `[5, 2, 8]` come out as
`B, A, C`. -/
theorem sortCandidates_sorted_perm (h : Host) (frm : Planet) :
    (∀ mapping : List Planet, hasCoords frm → (∀ p ∈ mapping, hasCoords p) →
      ∃ l, sortCandidates h mapping frm = .ok l
        ∧ (l.map Prod.fst).Perm mapping
        ∧ (∀ x ∈ l, distance h frm x.1 = .ok x.2)
        ∧ l.Pairwise (fun a b => a.2 ≤ b.2))
      ∧ ∀ A B C : Planet, distance h frm A = .ok 5 → distance h frm B = .ok 2 →
          distance h frm C = .ok 8 →
          sortCandidates h [A, B, C] frm = .ok [(B, 2), (A, 5), (C, 8)] := by
  constructor
  · intro mapping hfrm hall
    obtain ⟨r, hr, hfst, hsnd⟩ := mapDistance_ok (fun t => distance h frm t) mapping
      (fun p hp => distance_ok_of_hasCoords h frm p hfrm (hall p hp))
    refine ⟨sortByDistance r, by simp [sortCandidates, hr], ?_, ?_, sortByDistance_sorted r⟩
    · rw [← hfst]
      exact (sortByDistance_perm r).map _
    · intro x hx
      exact hsnd x ((sortByDistance_perm r).subset hx)
  · intro A B C hA hB hC
    simp only [sortCandidates, mapDistance, hA, hB, hC, sortByDistance, List.insertionSort,
      List.orderedInsert]
    norm_num

/-- The two located example destinations, sorted from `srcA`. -/
theorem sortCandidates_sorted_perm_witness :
    ∃ l, sortCandidates exampleHost [farP, nearP] srcA = .ok l
      ∧ (l.map Prod.fst).Perm [farP, nearP]
      ∧ (∀ x ∈ l, distance exampleHost srcA x.1 = .ok x.2)
      ∧ l.Pairwise (fun a b => a.2 ≤ b.2) :=
  (sortCandidates_sorted_perm exampleHost srcA).1 [farP, nearP]
    ⟨⟨some ⟨0, 0⟩⟩, ⟨0, 0⟩, rfl, rfl⟩
    (by
      intro p hp
      simp only [List.mem_cons, List.mem_singleton, List.not_mem_nil, or_false] at hp
      rcases hp with rfl | rfl
      · exact ⟨⟨some ⟨6, 8⟩⟩, ⟨6, 8⟩, rfl, rfl⟩
      · exact ⟨⟨some ⟨3, 4⟩⟩, ⟨3, 4⟩, rfl, rfl⟩)

/-! ## C11: the own-planet branch of `calcPotential` -/

/-- The own-planet branch, once the guard is passed and the oracle has answered. -/
theorem calcPotential_own (h : Host) (src dst : Planet) (maxEnergy : ℚ) (passCheck : Bool)
    (env : Env) (d arriving : ℚ) (thr : Option ℚ)
    (hs : checkKnownPlanet src = false) (hd : checkKnownPlanet dst = false)
    (hpass : ¬ (maxEnergy ≤ 10 ∧ passCheck = true))
    (hown : dst.owner = env.world.account)
    (hdist : distance h src dst = .ok d)
    (ho : h.getEnergyArrivingForMove env.world src.locationId dst.locationId d
      (parseInt (src.energy * maxEnergy / 100)) = .ok arriving)
    (ht : thresholdRaw env.thresholds "Feed" = .ok thr) :
    calcPotential h src dst maxEnergy passCheck env
      = .ok (profitRule thr ⌊arriving⌋ dst.energyCap (parseInt (src.energy * maxEnergy / 100))) := by
  have hg : (checkKnownPlanet src || checkKnownPlanet dst
      || (decide (maxEnergy ≤ 10) && passCheck)) = false := by
    rw [hs, hd]
    by_cases hm : maxEnergy ≤ 10
    · cases passCheck
      · simp
      · exact absurd ⟨hm, rfl⟩ hpass
    · simp [hm]
  unfold calcPotential
  rw [hg]
  simp only [Bool.false_eq_true, if_false, hown, if_true]
  unfold potentialOwn
  simp only [hdist, ho, ht, tryCatch, profitRule]

/-- With the default thresholds the own-planet branch asks for 5% of the capacity:
the result is `offense` exactly when `floor(arriving)` is at least `0.05 * energyCap`. -/
theorem calcPotential_own_default (h : Host) (src dst : Planet) (maxEnergy : ℚ)
    (passCheck : Bool) (env : Env) (d arriving : ℚ)
    (hs : checkKnownPlanet src = false) (hd : checkKnownPlanet dst = false)
    (hpass : ¬ (maxEnergy ≤ 10 ∧ passCheck = true))
    (hown : dst.owner = env.world.account)
    (hdist : distance h src dst = .ok d)
    (ho : h.getEnergyArrivingForMove env.world src.locationId dst.locationId d
      (parseInt (src.energy * maxEnergy / 100)) = .ok arriving)
    (ht : env.thresholds = DEFAULT_THRESHOLDS) (hcap : 0 < dst.energyCap) :
    calcPotential h src dst maxEnergy passCheck env
      = .ok (if (5 / 100 : ℚ) * dst.energyCap ≤ ((⌊arriving⌋ : ℤ) : ℚ)
          then parseInt (src.energy * maxEnergy / 100) else 0) := by
  have hthr : thresholdRaw env.thresholds "Feed" = .ok (some (5 / 100 * 10000)) := by
    rw [ht]
    rfl
  rw [calcPotential_own h src dst maxEnergy passCheck env d arriving _ hs hd hpass hown hdist ho
    hthr]
  have hiff : ((5 / 100 * 10000 : ℚ) ≤ ((⌊(Percentage.new (((⌊arriving⌋ : ℤ) : ℚ)
      / dst.energyCap)).raw⌋ : ℤ) : ℚ)) ↔ (5 / 100 : ℚ) * dst.energyCap ≤ ((⌊arriving⌋ : ℤ) : ℚ) := by
    have h500 : (5 / 100 * 10000 : ℚ) = ((500 : ℤ) : ℚ) := by norm_num
    rw [h500, Int.cast_le, Int.le_floor]
    simp only [Percentage.new, Percentage.raw, PERCENTAGE]
    rw [div_mul_eq_mul_div, le_div_iff₀ hcap]
    constructor <;> intro hx <;> push_cast at hx ⊢ <;> linarith
  simp only [profitRule, geThreshold, decide_eq_true_eq]
  by_cases hc : (5 / 100 : ℚ) * dst.energyCap ≤ ((⌊arriving⌋ : ℤ) : ℚ)
  · rw [if_pos (hiff.mpr hc), if_pos hc]
  · rw [if_neg (fun hx => hc (hiff.mp hx)), if_neg hc]

/-- C11 (the code at the failing input). Own destination with capacity 10000, default
thresholds, source energy 200 and `maxEnergy = 50`: `offense` is 100 and all of it
arrives, which is 1% of the capacity, well above 0.05% of it (5 units); the code
returns `0`, because it compares the fraction `sent / energyCap` with the threshold's
percentage points, so that the default `Feed` threshold asks for 5% of the capacity. -/
theorem calcPotential_feed_threshold_is_five_percent :
    calcPotential exampleHost weakSrc nearP 50 false quietEnv = .ok 0
      ∧ parseInt (weakSrc.energy * 50 / 100) = 100
      ∧ exampleHost.getEnergyArrivingForMove quietEnv.world weakSrc.locationId nearP.locationId
          5 100 = .ok 100
      ∧ (5 / 100 : ℚ) / 100 * nearP.energyCap ≤ 100
      ∧ calcPotential exampleHost srcA nearP 50 false quietEnv = .ok 500 := by
  refine ⟨?_, ?_, ?_, ?_, ?_⟩ <;> decide!

/-! ## C12, C13, C14: adding and removing units -/

/-- What `setUnit` does to the units object: the id is pushed when some element of the
list differs from it or the list is empty, whether or not the id is already there. -/
theorem setUnit_units (planetId : LocationId) (unitKey : UnitKey) (env : Env) (u : Units)
    (hu : derefUnits env = some u) :
    derefUnits (setUnit planetId unitKey env).2
      = some (if (u.get unitKey).any (fun i => i != planetId) || (u.get unitKey).length == 0
          then u.set unitKey (u.get unitKey ++ [planetId]) else u) := by
  unfold setUnit
  rw [hu]
  simp only []
  split_ifs with hc
  · cases hr : env.units with
    | default =>
      simp only [derefUnits, hr] at hu
      simp [update, saveUnits, storeUnits, mutateUnits, derefUnits, hr, ← Option.some.inj hu]
    | own v =>
      simp only [derefUnits, hr] at hu
      simp [update, saveUnits, storeUnits, mutateUnits, derefUnits, hr, ← Option.some.inj hu]
    | null => simp [derefUnits, hr] at hu
  · simpa [derefUnits] using hu

/-- When `setUnit` pushes, the backup entry and the primary entry receive the same
value: the units after the push. -/
theorem setUnit_backup_is_primary (planetId : LocationId) (unitKey : UnitKey) (env : Env)
    (u : Units) (hu : derefUnits env = some u)
    (hadd : ((u.get unitKey).any (fun i => i != planetId) || (u.get unitKey).length == 0)
      = true) :
    (setUnit planetId unitKey env).2.storage.unitsSave
        = some (.units (u.set unitKey (u.get unitKey ++ [planetId])))
      ∧ (setUnit planetId unitKey env).2.storage.units
        = some (.units (u.set unitKey (u.get unitKey ++ [planetId]))) := by
  unfold setUnit
  rw [hu]
  simp only [hadd, if_true]
  cases hr : env.units with
  | default =>
    simp only [derefUnits, hr] at hu
    simp [update, saveUnits, storeUnits, mutateUnits, derefUnits, stringifyUnits, hr,
      ← Option.some.inj hu]
  | own v =>
    simp only [derefUnits, hr] at hu
    simp [update, saveUnits, storeUnits, mutateUnits, derefUnits, stringifyUnits, hr,
      ← Option.some.inj hu]
  | null => simp [derefUnits, hr] at hu

/-- The units object is the same before and after `clearUnit`, in every state. -/
theorem clearUnit_units (planetId : LocationId) (unitKey : UnitKey) (env : Env) :
    derefUnits (clearUnit planetId unitKey env).2 = derefUnits env := by
  unfold clearUnit
  cases hu : derefUnits env with
  | none => simp [hu]
  | some u =>
    simp only []
    split_ifs
    · cases hr : env.units <;>
        simp [update, saveUnits, storeUnits, derefUnits, hr] at hu ⊢ <;> exact hu
    · simpa [derefUnits] using hu

/-- C12 (the code at the failing input). Plugin start on a stored empty units object,
then `setUnit('a', 'Blitz')`, `setUnit('b', 'Blitz')`: the list is `['a', 'b']`, without
duplicates.  A further `setUnit('a', 'Blitz')` pushes `a` again, because `b` differs
from `a`: the list is `['a', 'b', 'a']`. -/
theorem setUnit_pushes_present_id :
    derefUnits (runUnitOps storedEnv [.loadUnits, .setUnit "a" .Blitz, .setUnit "b" .Blitz])
        = some { Units.empty with Blitz := ["a", "b"] }
      ∧ derefUnits (runUnitOps storedEnv
          [.loadUnits, .setUnit "a" .Blitz, .setUnit "b" .Blitz, .setUnit "a" .Blitz])
        = some { Units.empty with Blitz := ["a", "b", "a"] }
      ∧ ¬ (["a", "b", "a"] : List LocationId).Nodup := by
  refine ⟨?_, ?_, ?_⟩ <;> decide

/-- C13 (the code at the failing input). Plugin start on a stored empty units object,
then `setUnit('p1', 'None')` and `clearUnit('p1', 'None')`: the list of `None` and the
stored `Units` entry still contain `p1`. -/
theorem clearUnit_keeps_unit :
    derefUnits (runUnitOps storedEnv [.loadUnits, .setUnit "p1" .None])
        = some { Units.empty with None := ["p1"] }
      ∧ derefUnits (runUnitOps storedEnv [.loadUnits, .setUnit "p1" .None, .clearUnit "p1" .None])
        = some { Units.empty with None := ["p1"] }
      ∧ (runUnitOps storedEnv
          [.loadUnits, .setUnit "p1" .None, .clearUnit "p1" .None]).storage.units
        = some (.units { Units.empty with None := ["p1"] }) := by
  refine ⟨?_, ?_, ?_⟩ <;> decide

/-- C14 (the code at the failing input). Plugin start on a stored empty units object,
then `setUnit('p1', 'Blitz')`: before the call the units are empty; after it the backup
entry `Units-SAVE` holds `p1` under `Blitz`, the same value as the primary entry, so the
units as they were before the call are stored nowhere. -/
theorem setUnit_backup_holds_new_id :
    derefUnits (runUnitOps storedEnv [.loadUnits]) = some Units.empty
      ∧ (runUnitOps storedEnv [.loadUnits, .setUnit "p1" .Blitz]).storage.unitsSave
        = some (.units { Units.empty with Blitz := ["p1"] })
      ∧ (runUnitOps storedEnv [.loadUnits, .setUnit "p1" .Blitz]).storage.units
        = some (.units { Units.empty with Blitz := ["p1"] }) := by
  refine ⟨?_, ?_, ?_⟩ <;> decide

/-! ## C16: what `capture` returns -/

/-- The three ways `capture` ends: `0` for an empty list, `undefined` for a source with
an unconfirmed outbound move, a `ReferenceError` in every other case. -/
theorem capture_cases (h : Host) (src : Planet) (dsts : List (Planet × ℚ)) (maxEnergy : ℚ)
    (env : Env) :
    (dsts = [] → (capture h src dsts maxEnergy env).1 = .ok (some 0))
      ∧ (dsts ≠ [] → outboundCount env.world src.locationId ≠ 0 →
          capture h src dsts maxEnergy env = (.ok none, env))
      ∧ (dsts ≠ [] → outboundCount env.world src.locationId = 0 →
          capture h src dsts maxEnergy env = (.error (.referenceError "planet"), env)) := by
  refine ⟨?_, ?_, ?_⟩
  · intro h0
    simp [capture, h0]
  · intro h0 hout
    have hl : dsts.length ≠ 0 := fun hx => h0 (List.length_eq_zero.mp hx)
    unfold capture
    rw [if_neg hl]
    exact if_pos hout
  · intro h0 hout
    have hl : dsts.length ≠ 0 := fun hx => h0 (List.length_eq_zero.mp hx)
    unfold capture
    rw [if_neg hl]
    exact if_neg (not_not.mpr hout)

/-- C16 (the code at the failing input). A source with nothing in flight and one
candidate: `capture` throws a `ReferenceError` for `planet` and commits nothing.  A
source with a move in flight: `capture` returns `undefined`, not `0`. -/
theorem capture_throws_on_planet :
    capture exampleHost srcA [(nearP, 5)] 50 quietEnv
        = (.error (.referenceError "planet"), quietEnv)
      ∧ capture exampleHost srcA [(nearP, 5)] 50 busyEnv = (.ok none, busyEnv) := by
  constructor <;> decide!

/-! ## C19: destinations that are not clear -/

/-- C19 (the code at the failing input). Planet `far` has an unconfirmed inbound move
(first world) or a voyage arriving in the future (second world); `sendSilver` still
sends it 1000 silver.  The loop of `capture` passes the same candidate over. -/
theorem sendSilver_sends_to_busy_destination :
    (sendSilver exampleHost srcA [farP] 50 100 1 (init ⟨none, none⟩ inboundWorld)).2.submitted
        = [⟨some "a", some "far", 300, 1000⟩]
      ∧ (sendSilver exampleHost srcA [farP] 50 100 1 (init ⟨none, none⟩ arrivalWorld)).2.submitted
        = [⟨some "a", some "far", 300, 1000⟩]
      ∧ captureLoop exampleHost srcA 500 [(farP, 10)] 0 0 (init ⟨none, none⟩ inboundWorld)
        = (.ok 0, init ⟨none, none⟩ inboundWorld)
      ∧ captureLoop exampleHost srcA 500 [(farP, 10)] 0 0 (init ⟨none, none⟩ arrivalWorld)
        = (.ok 0, init ⟨none, none⟩ arrivalWorld) := by
  refine ⟨?_, ?_, ?_, ?_⟩ <;> decide!

/-! ## C20: `sendEnergy` -/

/-- With energy left in the budget and a candidate to visit, the loop of `sendEnergy`
throws before it requests anything. -/
theorem sendEnergyLoop_throws (h : Host) (energyBudget : ℤ) (maxEnergy : ℚ) (c : Planet × ℚ)
    (rest : List (Planet × ℚ)) (energySpent : ℤ) (moves : ℕ) (env : Env)
    (hb : energyBudget - energySpent > 0) :
    sendEnergyLoop h energyBudget maxEnergy (c :: rest) energySpent moves env
      = (.error (.referenceError "dst"), env) := by
  obtain ⟨src, d⟩ := c
  rw [sendEnergyLoop, if_pos hb]
  rfl

/-- C20 (the code at the failing input). One source with 1000 energy, one destination
of level 3, `maxEnergy = 50`, `minLevel = 1`: the budget is 500, the loop is entered and
`sendEnergy` throws a `ReferenceError` for `dst`; no transfer is requested. -/
theorem sendEnergy_throws_on_dst :
    sendEnergy exampleHost srcA [farP] 50 1 quietEnv
      = (.error (.referenceError "dst"), quietEnv) := by
  decide!

/-! ## C17: the silver budget of `sendSilver` -/

theorem silverNeededFor_le (dst : Planet) (silverLeft : ℤ) :
    silverNeededFor dst silverLeft ≤ silverLeft := by
  rw [silverNeededFor_eq_min]
  exact min_le_right _ _

/-- The silver side of the loop invariant: what the loop requests carries no more silver
than what was left of the silver budget. -/
theorem sendSilverLoop_silver (h : Host) (src : Planet) (energyBudget silverBudget : ℤ) :
    ∀ (l : List (Planet × ℚ)) (energySpent silverSpent : ℤ) (moves : ℕ) (env : Env),
      ∃ L : List Transfer,
        (sendSilverLoop h src energyBudget silverBudget l energySpent silverSpent moves
            env).2.requested = env.requested ++ L
          ∧ totalSilver L ≤ ((max 0 (silverBudget - silverSpent) : ℤ) : ℚ) := by
  intro l
  induction l with
  | nil =>
    intro energySpent silverSpent moves env
    refine ⟨[], by rw [sendSilverLoop]; simp, ?_⟩
    simp [totalSilver]
  | cons c rest ih =>
    intro energySpent silverSpent moves env
    obtain ⟨dst, d⟩ := c
    have hnone : ∃ L : List Transfer, env.requested = env.requested ++ L
        ∧ totalSilver L ≤ ((max 0 (silverBudget - silverSpent) : ℤ) : ℚ) :=
      ⟨[], by simp, by simp [totalSilver]⟩
    rw [sendSilverLoop_cons]
    by_cases hb : energyBudget - energySpent > 0
    · rw [if_pos hb]
      by_cases hs : silverNeededFor dst (silverBudget - silverSpent) < 200
      · rw [if_pos hs]
        exact ih energySpent silverSpent moves env
      · rw [if_neg hs]
        cases ho : h.getEnergyNeededForMove env.world src.locationId dst.locationId 1 with
        | error e => exact hnone
        | ok needed =>
          simp only []
          by_cases he : energyBudget - energySpent - ⌈needed⌉ < 0
          · rw [if_pos he]
            exact ih energySpent silverSpent moves env
          · rw [if_neg he]
            have hreq := move_requested h src.locationId dst.locationId (⌈needed⌉ : ℤ)
              (silverNeededFor dst (silverBudget - silverSpent) : ℤ) env
            have hle := silverNeededFor_le dst (silverBudget - silverSpent)
            have hbound : ((silverNeededFor dst (silverBudget - silverSpent) : ℤ) : ℚ)
                ≤ ((max 0 (silverBudget - silverSpent) : ℤ) : ℚ) := by
              exact_mod_cast le_trans hle (le_max_right _ _)
            cases hm : move h src.locationId dst.locationId (⌈needed⌉ : ℤ)
                (silverNeededFor dst (silverBudget - silverSpent) : ℤ) env with
            | mk r env1 =>
              rw [hm] at hreq
              simp only [] at hreq
              cases r with
              | error e =>
                refine ⟨[⟨src.locationId, dst.locationId, (⌈needed⌉ : ℤ),
                  (silverNeededFor dst (silverBudget - silverSpent) : ℤ)⟩], hreq, ?_⟩
                simpa [totalSilver] using hbound
              | ok v =>
                obtain ⟨L, hL, hsum⟩ := ih (energySpent + ⌈needed⌉)
                  (silverSpent + silverNeededFor dst (silverBudget - silverSpent)) (moves + 1) env1
                refine ⟨⟨src.locationId, dst.locationId, (⌈needed⌉ : ℤ),
                  (silverNeededFor dst (silverBudget - silverSpent) : ℤ)⟩ :: L, ?_, ?_⟩
                · simp only []
                  rw [hL, hreq]
                  simp
                · simp only [totalSilver, List.map_cons, List.sum_cons]
                  have h1 : max 0 (silverBudget
                      - (silverSpent + silverNeededFor dst (silverBudget - silverSpent)))
                      = silverBudget - silverSpent
                        - silverNeededFor dst (silverBudget - silverSpent) := by
                    rw [max_eq_right (by omega)]
                    ring
                  rw [h1] at hsum
                  have h2 : ((silverBudget - silverSpent : ℤ) : ℚ)
                      ≤ ((max 0 (silverBudget - silverSpent) : ℤ) : ℚ) := by
                    exact_mod_cast le_max_right _ _
                  simp only [totalSilver] at hsum
                  push_cast at hsum h2 ⊢
                  linarith
    · rw [if_neg hb]
      exact hnone

/-- For any percentage and stock, negative ones included: the silver requested by one
call, and the silver submitted, total at most `max(0, silver budget)`. -/
theorem sendSilver_silver_le_max (h : Host) (src : Planet) (dsts : List Planet)
    (maxEnergy maxSilver minLevel : ℚ) (env : Env) :
    totalSilver (issuedBy env (sendSilver h src dsts maxEnergy maxSilver minLevel env).2)
        ≤ ((max 0 ⌊maxSilver * src.silver / 100⌋ : ℤ) : ℚ)
      ∧ totalSilver (submittedBy env (sendSilver h src dsts maxEnergy maxSilver minLevel env).2)
        ≤ ((max 0 ⌊maxSilver * src.silver / 100⌋ : ℤ) : ℚ) := by
  obtain ⟨L, S, h1, h2, h3, _, h5⟩ :=
    sendSilver_issued h src dsts maxEnergy maxSilver minLevel env
  have hL : issuedBy env (sendSilver h src dsts maxEnergy maxSilver minLevel env).2 = L := by
    simp [issuedBy, h1]
  have hS : submittedBy env (sendSilver h src dsts maxEnergy maxSilver minLevel env).2 = S := by
    simp [submittedBy, h2]
  have hbound : totalSilver L ≤ ((max 0 ⌊maxSilver * src.silver / 100⌋ : ℤ) : ℚ) := by
    have hnil : totalSilver ([] : List Transfer)
        ≤ ((max 0 ⌊maxSilver * src.silver / 100⌋ : ℤ) : ℚ) := by simp [totalSilver]
    unfold sendSilver at h1
    by_cases h0 : dsts.length = 0
    · rw [if_pos h0] at h1
      have : L = [] := by simpa using h1
      rw [this]
      exact hnil
    · rw [if_neg h0] at h1
      cases hmap : mapDistance (fun dst => distance h dst src)
          (dsts.filter (fun dst => decide (dst.planetLevel ≥ minLevel))) with
      | error e =>
        rw [hmap] at h1
        have : L = [] := by simpa using h1
        rw [this]
        exact hnil
      | ok tuples =>
        rw [hmap] at h1
        obtain ⟨L', hL', hsum⟩ := sendSilverLoop_silver h src
          ⌊maxEnergy * src.energy / 100⌋ ⌊maxSilver * src.silver / 100⌋
          (sortByDistance tuples) 0 0 0 env
        simp only [] at h1
        rw [hL'] at h1
        have : L = L' := (List.append_cancel_left h1).symm
        rw [this]
        simpa using hsum
  rw [hL, hS]
  refine ⟨hbound, le_trans ?_ hbound⟩
  unfold totalSilver
  refine List.Sublist.sum_le_sum (h3.map _) ?_
  intro x hx
  obtain ⟨t, ht, rfl⟩ := List.mem_map.mp hx
  exact le_trans (by norm_num) (h5 t ht).1

/-- C17. For every source with a non-negative silver stock, every destination list and
every non-negative `maxSilver`, the silver carried by the transfers one `sendSilver`
call requests from the dispatcher totals at most `floor(maxSilver * src.silver / 100)`,
and so does the silver of the transfers it hands to the world.  The loop itself stays
within any non-negative silver budget it is started with, whatever value line 593
computed. -/
theorem sendSilver_silver_within_budget (h : Host) (src : Planet) (dsts : List Planet)
    (maxEnergy maxSilver minLevel : ℚ) (env : Env)
    (hmax : 0 ≤ maxSilver) (hstock : 0 ≤ src.silver) :
    totalSilver (issuedBy env (sendSilver h src dsts maxEnergy maxSilver minLevel env).2)
        ≤ ((⌊maxSilver * src.silver / 100⌋ : ℤ) : ℚ)
      ∧ totalSilver (submittedBy env (sendSilver h src dsts maxEnergy maxSilver minLevel env).2)
        ≤ ((⌊maxSilver * src.silver / 100⌋ : ℤ) : ℚ)
      ∧ (∀ (energyBudget silverBudget : ℤ) (l : List (Planet × ℚ)) (e : Env),
          0 ≤ silverBudget →
          totalSilver (issuedBy e (sendSilverLoop h src energyBudget silverBudget l 0 0 0 e).2)
            ≤ (silverBudget : ℚ)) := by
  have hb := budget_nonneg maxSilver src.silver hmax hstock
  have hm := sendSilver_silver_le_max h src dsts maxEnergy maxSilver minLevel env
  rw [max_eq_right hb] at hm
  refine ⟨hm.1, hm.2, ?_⟩
  intro energyBudget silverBudget l e hnn
  obtain ⟨L, h1, h4⟩ := sendSilverLoop_silver h src energyBudget silverBudget l 0 0 0 e
  have hL : issuedBy e (sendSilverLoop h src energyBudget silverBudget l 0 0 0 e).2 = L := by
    simp [issuedBy, h1]
  rw [hL]
  have hmax0 : max 0 (silverBudget - 0) = silverBudget := by
    rw [sub_zero, max_eq_right hnn]
  rw [hmax0] at h4
  exact h4

/-- With `maxSilver = 100` and 5000 silver the budget is 5000; the one destination
reached takes the 1000 it has room for. -/
theorem sendSilver_silver_within_budget_witness :
    (totalSilver (issuedBy quietEnv (sendSilver exampleHost srcA [farP, nearP] 50 100 1
        quietEnv).2) ≤ ((⌊(100 : ℚ) * srcA.silver / 100⌋ : ℤ) : ℚ))
      ∧ totalSilver (issuedBy quietEnv (sendSilver exampleHost srcA [farP, nearP] 50 100 1
        quietEnv).2) = 1000
      ∧ ⌊(100 : ℚ) * srcA.silver / 100⌋ = 5000 :=
  ⟨(sendSilver_silver_within_budget exampleHost srcA [farP, nearP] 50 100 1 quietEnv
      (by norm_num) (by decide!)).1,
   by decide!, by decide!⟩

/-! ## C18: the branch for destinations of others -/

/-- The shape of both branches, in the raw units of the code, for known planets and an
answering oracle (finite numbers: defense and capacity not zero): for a destination of
the account the result is the threshold rule applied to `floor(arriving)` and the
`Feed` threshold; otherwise it is the same rule applied to
`floor(arriving / (dst.defense / 100))` and to the `Feed` threshold for an unowned
(`PIRATE`) planet, the `Attack` threshold otherwise.  The rule returns `offense` when
the floor of `sent / dst.energyCap * 10000` reaches the raw threshold, `0` otherwise. -/
theorem calcPotential_other_uses_own_rule (h : Host) (src dst : Planet) (maxEnergy : ℚ)
    (passCheck : Bool) (env : Env) (d arriving : ℚ) (thr : Option ℚ)
    (hs : checkKnownPlanet src = false) (hd : checkKnownPlanet dst = false)
    (hpass : ¬ (maxEnergy ≤ 10 ∧ passCheck = true))
    (hdist : distance h src dst = .ok d)
    (ho : h.getEnergyArrivingForMove env.world src.locationId dst.locationId d
      (parseInt (src.energy * maxEnergy / 100)) = .ok arriving) :
    (dst.owner = env.world.account → thresholdRaw env.thresholds "Feed" = .ok thr →
        calcPotential h src dst maxEnergy passCheck env
          = .ok (profitRule thr ⌊arriving⌋ dst.energyCap
              (parseInt (src.energy * maxEnergy / 100))))
      ∧ (dst.owner ≠ env.world.account → dst.defense ≠ 0 → dst.energyCap ≠ 0 →
        thresholdRaw env.thresholds (if dst.owner = PIRATE then "Feed" else "Attack") = .ok thr →
        calcPotential h src dst maxEnergy passCheck env
          = .ok (profitRule thr ⌊arriving / (dst.defense / 100)⌋ dst.energyCap
              (parseInt (src.energy * maxEnergy / 100))))
      ∧ (∀ (t : ℚ) (sent offense : ℤ) (energyCap : ℚ),
        profitRule (some t) sent energyCap offense
          = if t ≤ ((⌊(sent : ℚ) / energyCap * 10000⌋ : ℤ) : ℚ) then offense else 0) := by
  refine ⟨?_, ?_, ?_⟩
  · intro hown ht
    exact calcPotential_own h src dst maxEnergy passCheck env d arriving thr hs hd hpass hown
      hdist ho ht
  · intro hother _ _ ht
    have hg : (checkKnownPlanet src || checkKnownPlanet dst
        || (decide (maxEnergy ≤ 10) && passCheck)) = false := by
      rw [hs, hd]
      by_cases hm : maxEnergy ≤ 10
      · cases passCheck
        · simp
        · exact absurd ⟨hm, rfl⟩ hpass
      · simp [hm]
    unfold calcPotential
    rw [hg]
    simp only [Bool.false_eq_true, if_false, hother]
    unfold potentialOther
    simp only [hdist, ho, ht, tryCatch, profitRule, DEFENSE]
  · intro t sent offense energyCap
    simp [profitRule, geThreshold, Percentage.new, Percentage.raw, PERCENTAGE]

/-- An unowned planet of capacity 10000 and defense 100: 500 energy arrive, that is 5%
of the capacity, the default `Feed` threshold is met and the potential is 500.  For a
planet of another player the default `Attack` threshold (raw 100000) asks for ten
times the capacity: met for capacity 40, not met for capacity 10000. -/
theorem calcPotential_other_uses_own_rule_witness :
    calcPotential exampleHost srcA pirateP 50 false quietEnv = .ok 500
      ∧ calcPotential exampleHost srcA enemyP 50 false quietEnv = .ok 500
      ∧ calcPotential exampleHost srcA { enemyP with energyCap := 10000 } 50 false quietEnv
        = .ok 0 :=
  ⟨((calcPotential_other_uses_own_rule exampleHost srcA pirateP 50 false quietEnv 5 500
      (some 500) (by decide) (by decide) (by simp) (by decide!) (by decide!)).2.1
    (by decide) (by decide!) (by decide!) (by decide!)).trans (by decide!),
   by decide!, by decide!⟩

/-- C18 (the code at the failing input). A planet of another player with capacity 1000
and defense 100, default thresholds, source energy 1000 and `maxEnergy = 50`: `offense`
is 500, all of it arrives, the defended amount is `floor(500 / (100 / 100)) = 500`, half
of the capacity and well above the 10% of the `Attack` threshold (100 units); the code
returns `0`.  It compares the fraction `sent / energyCap` with the threshold's
percentage points (the defect of C11), so the `Attack` threshold asks for ten times
the capacity: with capacity 40 the same 500 units are accepted. -/
theorem calcPotential_attack_threshold_is_tenfold :
    calcPotential exampleHost srcA rivalP 50 false quietEnv = .ok 0
      ∧ parseInt (srcA.energy * 50 / 100) = 500
      ∧ exampleHost.getEnergyArrivingForMove quietEnv.world srcA.locationId rivalP.locationId
          5 500 = .ok 500
      ∧ ⌊(500 : ℚ) / (rivalP.defense / 100)⌋ = 500
      ∧ (10 / 100 : ℚ) * rivalP.energyCap ≤ 500
      ∧ rivalP.owner ≠ quietEnv.world.account
      ∧ rivalP.owner ≠ PIRATE
      ∧ calcPotential exampleHost srcA enemyP 50 false quietEnv = .ok 500
      ∧ ¬ (10 : ℚ) * rivalP.energyCap ≤ 500
      ∧ (10 : ℚ) * enemyP.energyCap ≤ 500 := by
  refine ⟨?_, ?_, ?_, ?_, ?_, ?_, ?_, ?_, ?_, ?_⟩ <;> decide!

/-! ## C15: `receiveEnergy` -/

/-- The potential depends on the environment through the world and the thresholds only. -/
theorem calcPotential_congr (h : Host) (src dst : Planet) (maxEnergy : ℚ) (passCheck : Bool)
    (e1 e2 : Env) (hw : e1.world = e2.world) (ht : e1.thresholds = e2.thresholds) :
    calcPotential h src dst maxEnergy passCheck e1
      = calcPotential h src dst maxEnergy passCheck e2 := by
  unfold calcPotential potentialOwn potentialOther
  rw [hw, ht]

theorem calcPotential_eq_value (h : Host) (src dst : Planet) (maxEnergy : ℚ) (env : Env) :
    calcPotential h src dst maxEnergy false env
      = .ok (potentialValue h src dst maxEnergy env) := by
  obtain ⟨v, hv⟩ := calcPotential_never_raises h src dst maxEnergy false env
  simp [potentialValue, hv]

/-- The dispatcher leaves the thresholds alone and returns normally when fewer than 5
transfers are inbound; the world afterwards is the old one or the one the imported
`move` made. -/
theorem move_effects (h : Host) (srcId dstId : Option LocationId) (energy silver : ℚ)
    (env : Env) :
    (move h srcId dstId energy silver env).2.thresholds = env.thresholds
      ∧ ((move h srcId dstId energy silver env).2.world = env.world
          ∨ (move h srcId dstId energy silver env).2.world
              = (h.move env.world ⟨srcId, dstId, energy, silver⟩).2)
      ∧ (inboundCount env.world dstId < 5 →
          ∃ r, (move h srcId dstId energy silver env).1 = .ok r) := by
  unfold move
  rw [moveBody_cases]
  refine ⟨?_, ?_, ?_⟩
  · split_ifs <;> simp [fail, submit]
  · split_ifs <;> simp [fail, submit]
  · intro hin
    have hin' : ¬ inboundCount env.world dstId > 4 := by omega
    simp only [hin', if_false]
    split_ifs <;> exact ⟨_, rfl⟩

/-- One step of the loop of `receiveEnergy`. -/
theorem receiveEnergyLoop_cons (h : Host) (dst : Planet) (maxEnergy : ℚ) (src : Planet) (d : ℚ)
    (rest : List (Planet × ℚ)) (moves : ℕ) (env : Env) :
    receiveEnergyLoop h dst maxEnergy ((src, d) :: rest) moves env =
      if potentialValue h src dst maxEnergy env ≤ 0 then
        receiveEnergyLoop h dst maxEnergy rest moves env
      else
        match move h src.locationId dst.locationId
            (potentialValue h src dst maxEnergy env : ℤ) 0 env with
        | (.error e, env1) => (.error e, env1)
        | (.ok _, env1) => receiveEnergyLoop h dst maxEnergy rest (moves + 1) env1 := by
  rw [receiveEnergyLoop, calcPotential_eq_value]

/-- The loop only appends to the record of requested transfers. -/
theorem receiveEnergyLoop_requested (h : Host) (dst : Planet) (maxEnergy : ℚ) :
    ∀ (l : List (Planet × ℚ)) (moves : ℕ) (env : Env),
      ∃ L, (receiveEnergyLoop h dst maxEnergy l moves env).2.requested = env.requested ++ L := by
  intro l
  induction l with
  | nil =>
    intro moves env
    exact ⟨[], by rw [receiveEnergyLoop]; simp⟩
  | cons c rest ih =>
    intro moves env
    obtain ⟨src, d⟩ := c
    rw [receiveEnergyLoop_cons]
    split_ifs with hp
    · exact ih moves env
    · have hreq := move_requested h src.locationId dst.locationId
        (potentialValue h src dst maxEnergy env : ℤ) 0 env
      cases hm : move h src.locationId dst.locationId
          (potentialValue h src dst maxEnergy env : ℤ) 0 env with
      | mk r env1 =>
        rw [hm] at hreq
        simp only [] at hreq
        cases r with
        | error e => exact ⟨_, hreq⟩
        | ok v =>
          obtain ⟨L, hL⟩ := ih (moves + 1) env1
          refine ⟨⟨src.locationId, dst.locationId,
            (potentialValue h src dst maxEnergy env : ℤ), 0⟩ :: L, ?_⟩
          simp only []
          rw [hL, hreq]
          simp

theorem potentialValue_congr (h : Host) (src dst : Planet) (maxEnergy : ℚ) (e1 e2 : Env)
    (hw : e1.world = e2.world) (ht : e1.thresholds = e2.thresholds) :
    potentialValue h src dst maxEnergy e1 = potentialValue h src dst maxEnergy e2 := by
  unfold potentialValue
  rw [calcPotential_congr h src dst maxEnergy false e1 e2 hw ht]

/-- The whole loop when the imported `move` leaves the snapshot as it is and fewer than
5 transfers are inbound to `dst`: every source with a positive potential gets its
transfer, in the order of the list, and the moves are counted. -/
theorem receiveEnergyLoop_stable (h : Host) (dst : Planet) (maxEnergy : ℚ) (env : Env)
    (hmove : ∀ t, (h.move env.world t).2 = env.world)
    (hin : inboundCount env.world dst.locationId < 5) :
    ∀ (l : List (Planet × ℚ)) (moves : ℕ) (e : Env),
      e.world = env.world → e.thresholds = env.thresholds →
      (receiveEnergyLoop h dst maxEnergy l moves e).1
          = .ok (moves + (feeders h dst maxEnergy env l).length)
        ∧ (receiveEnergyLoop h dst maxEnergy l moves e).2.requested
          = e.requested ++ (feeders h dst maxEnergy env l).map (feedTransfer h dst maxEnergy env) := by
  intro l
  induction l with
  | nil =>
    intro moves e _ _
    rw [receiveEnergyLoop]
    simp [feeders]
  | cons c rest ih =>
    intro moves e hw ht
    obtain ⟨src, d⟩ := c
    have hpv := potentialValue_congr h src dst maxEnergy e env hw ht
    rw [receiveEnergyLoop_cons, hpv]
    by_cases hp : potentialValue h src dst maxEnergy env ≤ 0
    · rw [if_pos hp]
      have hf : feeders h dst maxEnergy env ((src, d) :: rest) = feeders h dst maxEnergy env rest := by
        unfold feeders
        rw [List.filter_cons_of_neg]
        simpa using hp
      rw [hf]
      exact ih moves e hw ht
    · rw [if_neg hp]
      have hf : feeders h dst maxEnergy env ((src, d) :: rest)
          = (src, d) :: feeders h dst maxEnergy env rest := by
        unfold feeders
        rw [List.filter_cons_of_pos]
        simpa using hp
      have hreq := move_requested h src.locationId dst.locationId
        (potentialValue h src dst maxEnergy env : ℤ) 0 e
      obtain ⟨hthr, hworld, hok⟩ := move_effects h src.locationId dst.locationId
        (potentialValue h src dst maxEnergy env : ℤ) 0 e
      obtain ⟨r, hr⟩ := hok (by rw [hw]; exact hin)
      cases hm : move h src.locationId dst.locationId
          (potentialValue h src dst maxEnergy env : ℤ) 0 e with
      | mk r1 env1 =>
        rw [hm] at hreq hthr hworld hr
        simp only [] at hreq hthr hworld hr
        subst hr
        have hw1 : env1.world = env.world := by
          rcases hworld with hx | hx
          · rw [hx, hw]
          · rw [hx, hw, hmove]
        obtain ⟨h1, h2⟩ := ih (moves + 1) env1 hw1 (hthr.trans ht)
        simp only []
        rw [hf, h1, h2, hreq]
        refine ⟨?_, ?_⟩
        · simp only [List.length_cons]
          congr 1
          omega
        · simp [feedTransfer]

/-- C15 as stated fails: the source `a` has potential 500 towards `near`, but with a
second source that has no `location` in the list, `distance` throws a `TypeError` while
the tuples are built: no transfer is requested and no number is returned. -/
theorem receiveEnergy_throws_without_location :
    calcPotential exampleHost srcA nearP 50 false quietEnv = .ok 500
      ∧ receiveEnergy exampleHost [srcA, unknownPlanet] nearP 50 quietEnv
        = (.error (.typeError "location is undefined"), quietEnv) := by
  constructor <;> decide!

/-- The dispatcher returns normally for a transfer to the planet itself and for a
destination with fewer than 5 inbound transfers. -/
theorem move_ok_of_clear (h : Host) (srcId dstId : Option LocationId) (energy silver : ℚ)
    (env : Env) (hc : srcId = dstId ∨ claimedInbound env.world dstId < 5) :
    ∃ r, (move h srcId dstId energy silver env).1 = .ok r := by
  unfold move
  rw [moveBody_cases]
  by_cases h1 : srcId = dstId
  · exact ⟨MoveResult.zero, by simp [h1]⟩
  · rcases hc with hc | hc
    · exact absurd hc h1
    · have hin : ¬ inboundCount env.world dstId > 4 := by
        rw [inboundCount_eq_claimed]
        omega
      simp only [h1, hin, if_false]
      split_ifs <;> exact ⟨_, rfl⟩

/-- The loop carries out the plan: while no dispatch meets 5 or more inbound transfers,
it requests exactly the transfers of the plan and counts them. -/
theorem receiveEnergyLoop_plan (h : Host) (dst : Planet) (maxEnergy : ℚ) :
    ∀ (l : List (Planet × ℚ)) (moves : ℕ) (e : Env),
      inboundBelowFive h dst maxEnergy l e = true →
      (receiveEnergyLoop h dst maxEnergy l moves e).1
          = .ok (moves + (feedPlan h dst maxEnergy l e).length)
        ∧ (receiveEnergyLoop h dst maxEnergy l moves e).2.requested
          = e.requested ++ feedPlan h dst maxEnergy l e := by
  intro l
  induction l with
  | nil =>
    intro moves e _
    rw [receiveEnergyLoop]
    simp [feedPlan]
  | cons c rest ih =>
    intro moves e hb
    obtain ⟨src, d⟩ := c
    rw [receiveEnergyLoop_cons]
    by_cases hp : 0 < potentialValue h src dst maxEnergy e
    · rw [if_neg (not_le.mpr hp)]
      simp only [inboundBelowFive, hp, if_true, Bool.and_eq_true, Bool.or_eq_true,
        decide_eq_true_eq] at hb
      obtain ⟨hclear, hrest⟩ := hb
      have hreq := move_requested h src.locationId dst.locationId
        (potentialValue h src dst maxEnergy e : ℤ) 0 e
      obtain ⟨r, hr⟩ := move_ok_of_clear h src.locationId dst.locationId
        (potentialValue h src dst maxEnergy e : ℤ) 0 e hclear
      have hplan : feedPlan h dst maxEnergy ((src, d) :: rest) e
          = ⟨src.locationId, dst.locationId, (potentialValue h src dst maxEnergy e : ℤ), 0⟩ ::
            feedPlan h dst maxEnergy rest
              (move h src.locationId dst.locationId (potentialValue h src dst maxEnergy e : ℤ) 0
                e).2 := by
        simp [feedPlan, hp]
      rw [hplan]
      cases hm : move h src.locationId dst.locationId
          (potentialValue h src dst maxEnergy e : ℤ) 0 e with
      | mk r1 env1 =>
        rw [hm] at hreq hr hrest
        simp only [] at hreq hr hrest
        subst hr
        obtain ⟨h1, h2⟩ := ih (moves + 1) env1 hrest
        simp only []
        rw [h1, h2, hreq]
        refine ⟨?_, ?_⟩
        · simp only [List.length_cons]
          congr 1
          omega
        · simp
    · rw [if_pos (not_lt.mp hp)]
      simp only [inboundBelowFive, hp, if_false] at hb
      have hplan : feedPlan h dst maxEnergy ((src, d) :: rest) e
          = feedPlan h dst maxEnergy rest e := by
        simp [feedPlan, hp]
      rw [hplan]
      exact ih moves e hb

/-- Every transfer of the plan goes to `dst` from one of the sources, carries a
positive energy and no silver. -/
theorem feedPlan_transfers (h : Host) (dst : Planet) (maxEnergy : ℚ) :
    ∀ (l : List (Planet × ℚ)) (e : Env), ∀ t ∈ feedPlan h dst maxEnergy l e,
      t.dstId = dst.locationId ∧ t.silver = 0 ∧ 0 < t.energy
        ∧ ∃ x ∈ l, t.srcId = x.1.locationId := by
  intro l
  induction l with
  | nil =>
    intro e t ht
    simp [feedPlan] at ht
  | cons c rest ih =>
    intro e t ht
    obtain ⟨src, d⟩ := c
    by_cases hp : 0 < potentialValue h src dst maxEnergy e
    · simp only [feedPlan, hp, if_true, List.mem_cons] at ht
      rcases ht with ht | ht
      · subst ht
        refine ⟨rfl, rfl, ?_, (src, d), List.mem_cons_self _ _, rfl⟩
        show (0 : ℚ) < ((potentialValue h src dst maxEnergy e : ℤ) : ℚ)
        exact_mod_cast hp
      · obtain ⟨h1, h2, h3, x, hx, h4⟩ := ih _ t ht
        exact ⟨h1, h2, h3, x, List.mem_cons_of_mem _ hx, h4⟩
    · simp only [feedPlan, hp, if_false] at ht
      obtain ⟨h1, h2, h3, x, hx, h4⟩ := ih _ t ht
      exact ⟨h1, h2, h3, x, List.mem_cons_of_mem _ hx, h4⟩

/-- C15, amended. In the loop of `receiveEnergy` a source whose potential is not
positive is passed over, and a source with positive potential `p` has the transfer
`(src.locationId, dst.locationId, p, 0)` requested from the dispatcher; no budget is
kept between sources.  For a non-empty list of sources that, like `dst`, have location
coordinates, and as long as no transfer is dispatched while 5 or more transfers are
inbound to `dst`: the sources are visited in non-decreasing order of their distance to
`dst`, exactly the sources whose potential is positive when they are visited get one
transfer each, in that order, with energy equal to the potential and silver `0`, and
the call returns their number. -/
theorem receiveEnergy_feeds_positive_sources (h : Host) (dst : Planet) (maxEnergy : ℚ) :
    (∀ (src : Planet) (d : ℚ) (rest : List (Planet × ℚ)) (moves : ℕ) (e : Env) (p : ℤ),
        calcPotential h src dst maxEnergy false e = .ok p → p ≤ 0 →
        receiveEnergyLoop h dst maxEnergy ((src, d) :: rest) moves e
          = receiveEnergyLoop h dst maxEnergy rest moves e)
      ∧ (∀ (src : Planet) (d : ℚ) (rest : List (Planet × ℚ)) (moves : ℕ) (e : Env) (p : ℤ),
        calcPotential h src dst maxEnergy false e = .ok p → 0 < p →
        ∃ L, (receiveEnergyLoop h dst maxEnergy ((src, d) :: rest) moves e).2.requested
          = e.requested ++ (⟨src.locationId, dst.locationId, (p : ℤ), 0⟩ :: L))
      ∧ (∀ (srcs : List Planet) (env : Env),
        srcs ≠ [] → hasCoords dst → (∀ p ∈ srcs, hasCoords p) →
        inboundBelowFive h dst maxEnergy (feedOrder h srcs dst) env = true →
        ((feedOrder h srcs dst).map Prod.fst).Perm srcs
          ∧ (feedOrder h srcs dst).Pairwise (fun a b => a.2 ≤ b.2)
          ∧ (∀ x ∈ feedOrder h srcs dst, distance h x.1 dst = .ok x.2)
          ∧ (receiveEnergy h srcs dst maxEnergy env).1
              = .ok ((feedPlan h dst maxEnergy (feedOrder h srcs dst) env).length)
          ∧ issuedBy env (receiveEnergy h srcs dst maxEnergy env).2
              = feedPlan h dst maxEnergy (feedOrder h srcs dst) env
          ∧ ∀ t ∈ feedPlan h dst maxEnergy (feedOrder h srcs dst) env,
              t.dstId = dst.locationId ∧ t.silver = 0 ∧ 0 < t.energy
                ∧ ∃ x ∈ feedOrder h srcs dst, t.srcId = x.1.locationId) := by
  refine ⟨?_, ?_, ?_⟩
  · intro src d rest moves e p hp hle
    have hv : potentialValue h src dst maxEnergy e = p := by simp [potentialValue, hp]
    rw [receiveEnergyLoop_cons, hv, if_pos hle]
  · intro src d rest moves e p hp hpos
    have hv : potentialValue h src dst maxEnergy e = p := by simp [potentialValue, hp]
    rw [receiveEnergyLoop_cons, hv, if_neg (not_le.mpr hpos)]
    have hreq := move_requested h src.locationId dst.locationId (p : ℤ) 0 e
    cases hm : move h src.locationId dst.locationId (p : ℤ) 0 e with
    | mk r env1 =>
      rw [hm] at hreq
      simp only [] at hreq
      cases r with
      | error err => exact ⟨[], hreq⟩
      | ok v =>
        obtain ⟨L, hL⟩ := receiveEnergyLoop_requested h dst maxEnergy rest (moves + 1) env1
        refine ⟨L, ?_⟩
        simp only []
        rw [hL, hreq]
        simp
  · intro srcs env hne hdst hsrcs hin
    obtain ⟨r, hr, hfst, hsnd⟩ := mapDistance_ok (fun src => distance h src dst) srcs
      (fun p hp => distance_ok_of_hasCoords h p dst (hsrcs p hp) hdst)
    have hlen : srcs.length ≠ 0 := fun hx => hne (List.length_eq_zero.mp hx)
    have horder : feedOrder h srcs dst = sortByDistance r := by
      simp [feedOrder, hr]
    rw [horder] at hin ⊢
    obtain ⟨h1, h2⟩ := receiveEnergyLoop_plan h dst maxEnergy (sortByDistance r) 0 env hin
    have hrun : receiveEnergy h srcs dst maxEnergy env
        = receiveEnergyLoop h dst maxEnergy (sortByDistance r) 0 env := by
      unfold receiveEnergy
      rw [if_neg hlen, hr]
    refine ⟨?_, sortByDistance_sorted r, ?_, ?_, ?_,
      feedPlan_transfers h dst maxEnergy (sortByDistance r) env⟩
    · rw [← hfst]
      exact (sortByDistance_perm r).map _
    · intro x hx
      exact hsnd x ((sortByDistance_perm r).subset hx)
    · rw [hrun, h1]
      simp
    · rw [hrun]
      simp [issuedBy, h2]

/-- Two located sources feeding `near` through the example host, which registers every
submitted transfer as an unconfirmed move: both get their transfer, `a` (distance 5,
potential 500) before `b` (distance 10, potential 1000). -/
theorem receiveEnergy_feeds_positive_sources_witness :
    (receiveEnergy exampleHost [srcB, srcA] nearP 50 quietEnv).1
        = .ok ((feedPlan exampleHost nearP 50 (feedOrder exampleHost [srcB, srcA] nearP)
            quietEnv).length)
      ∧ issuedBy quietEnv (receiveEnergy exampleHost [srcB, srcA] nearP 50 quietEnv).2
        = feedPlan exampleHost nearP 50 (feedOrder exampleHost [srcB, srcA] nearP) quietEnv
      ∧ feedPlan exampleHost nearP 50 (feedOrder exampleHost [srcB, srcA] nearP) quietEnv
        = [⟨some "a", some "near", 500, 0⟩, ⟨some "b", some "near", 1000, 0⟩] := by
  have hw := (receiveEnergy_feeds_positive_sources exampleHost nearP 50).2.2 [srcB, srcA]
    quietEnv (by simp) ⟨⟨some ⟨3, 4⟩⟩, ⟨3, 4⟩, rfl, rfl⟩
    (by
      intro p hp
      simp only [List.mem_cons, List.mem_singleton, List.not_mem_nil, or_false] at hp
      rcases hp with rfl | rfl
      · exact ⟨⟨some ⟨9, 12⟩⟩, ⟨9, 12⟩, rfl, rfl⟩
      · exact ⟨⟨some ⟨0, 0⟩⟩, ⟨0, 0⟩, rfl, rfl⟩)
    (by decide!)
  exact ⟨hw.2.2.2.1, hw.2.2.2.2.1, by decide!⟩

/-- The run of the witness, evaluated: the nearer source `a` is served first. -/
theorem receiveEnergy_example_run :
    receiveEnergy queueHost [srcB, srcA] nearP 50 quietEnv
      = (.ok 2,
         { quietEnv with
           requested := [⟨some "a", some "near", 500, 0⟩, ⟨some "b", some "near", 1000, 0⟩]
           submitted := [⟨some "a", some "near", 500, 0⟩, ⟨some "b", some "near", 1000, 0⟩] }) := by
  decide!

/-! ## C21: the railroad filter -/

/-- What holds of `railroadFilters`: for a located source and a non-empty list of
located destinations it returns a planet of the list, and no planet of the list is
strictly closer to the source. -/
theorem railroadFilters_closest (h : Host) (src : Planet) (dsts : List Planet)
    (hne : dsts ≠ []) (hsrc : hasCoords src) (hall : ∀ p ∈ dsts, hasCoords p) :
    ∃ p d, railroadFilters h src dsts = .ok p ∧ p ∈ dsts ∧ distance h p src = .ok d
      ∧ ∀ q ∈ dsts, ∀ dq, distance h q src = .ok dq → d ≤ dq := by
  obtain ⟨r, hr, hfst, hsnd⟩ := mapDistance_ok (fun dst => distance h dst src) dsts
    (fun p hp => distance_ok_of_hasCoords h p src (hall p hp) hsrc)
  have hperm := sortByDistance_perm r
  have hsorted := sortByDistance_sorted r
  cases hs : sortByDistance r with
  | nil =>
    rw [hs] at hperm
    have hrnil : r = [] := List.Perm.eq_nil hperm.symm
    rw [hrnil] at hfst
    exact absurd hfst.symm hne
  | cons c rest =>
    obtain ⟨p, d⟩ := c
    rw [hs] at hperm hsorted
    have hmem : (p, d) ∈ r := hperm.subset (List.mem_cons_self _ _)
    refine ⟨p, d, by simp [railroadFilters, hr, hs], ?_, hsnd (p, d) hmem, ?_⟩
    · rw [← hfst]
      exact List.mem_map.mpr ⟨(p, d), hmem, rfl⟩
    · intro q hq dq hdq
      rw [← hfst] at hq
      obtain ⟨x, hx, hxq⟩ := List.mem_map.mp hq
      have hxd : distance h x.1 src = .ok x.2 := hsnd x hx
      rw [hxq, hdq] at hxd
      have hdqx : dq = x.2 := by
        injection hxd
      rw [hdqx]
      rcases List.mem_cons.mp (hperm.symm.subset hx) with hx1 | hx1
      · rw [hx1]
      · exact (List.pairwise_cons.mp hsorted).1 x hx1

/-- C21 (the code at the failing input). For the source `a` and the destinations
`[far, near]`, `railroadFilters` returns the planet `near` itself, not a list holding
it.  Handed on as `dsts`, that planet makes `sendSilver` and `sendEnergy` throw a
`TypeError` at `dsts.filter`, and nothing is sent; the one-member list `[near]` would
have had its transfer. -/
theorem railroadFilters_returns_planet :
    railroadFilters exampleHost srcA [farP, nearP] = .ok nearP
      ∧ sendSilverOn exampleHost srcA (.planet nearP) 50 100 1 quietEnv
        = (.error (.typeError "dsts.filter is not a function"), quietEnv)
      ∧ sendEnergyOn exampleHost srcA (.planet nearP) 50 1 quietEnv
        = (.error (.typeError "dsts.filter is not a function"), quietEnv)
      ∧ (sendSilverOn exampleHost srcA (.array [nearP]) 50 100 1 quietEnv).2.submitted
        = [⟨some "a", some "near", 400, 1000⟩] := by
  refine ⟨?_, ?_, ?_, ?_⟩ <;> decide!

/-! ## C22: loading the units -/

/-- What `loadUnits` does in every state: `this.units` becomes the parsed entry (`null`
when there is no entry), which is also returned, and nothing is written. -/
theorem loadUnits_spec (env : Env) :
    (loadUnits env).1 = .ok (parseItem env.storage.units)
      ∧ (loadUnits env).2.units = parseItem env.storage.units
      ∧ (loadUnits env).2.storage = env.storage
      ∧ (∀ u, env.storage.units = some (.units u) → derefUnits (loadUnits env).2 = some u) := by
  refine ⟨?_, ?_, ?_, ?_⟩
  · simp [loadUnits, typeofIsNotUndefined]
  · simp [loadUnits, typeofIsNotUndefined]
  · simp [loadUnits, typeofIsNotUndefined]
  · intro u hu
    simp [loadUnits, typeofIsNotUndefined, hu, parseItem, derefUnits]

/-- C22 (the code at the failing input). Plugin start on an empty storage:
`loadUnits()` returns `null`, leaves `this.units` `null` instead of the empty default,
writes no `Units` entry, and the following `setUnit('p1', 'Blitz')` throws a
`TypeError`.  With a stored entry, `loadUnits()` sets the units to the stored value. -/
theorem loadUnits_leaves_null_on_empty_storage :
    (loadUnits quietEnv).1 = .ok .null
      ∧ derefUnits (loadUnits quietEnv).2 = none
      ∧ (loadUnits quietEnv).2.storage.units = none
      ∧ (setUnit "p1" .Blitz (loadUnits quietEnv).2).1 = .error (.typeError "units is null")
      ∧ derefUnits (setUnit "p1" .Blitz (loadUnits quietEnv).2).2 = none
      ∧ derefUnits (loadUnits storedEnv).2 = some Units.empty := by
  refine ⟨?_, ?_, ?_, ?_, ?_, ?_⟩ <;> decide

end DarkArts
